import Mathlib

/-!
# Simple File System (`fs.c`): a shallow embedding

The file system of `src/fs.c` is embedded as pure functions over an explicit state.

* A block (`union fs_block`, 4096 bytes) is its `int pointers[1024]` view: a map from
  word index to a 32-bit signed value.  The other members of the union are views of
  the same words: `super` is words 0..3, `inode[j]` is words `8*j .. 8*j+7`
  (`isvalid`, `size`, `direct[0..4]`, `indirect`), and `data[j]` is byte `j % 4`
  (little endian) of word `j / 4`.
* Every access that leaves the 4096 bytes of the union, every `free_map` index outside
  the allocation and every device access outside `[0, nblocks)` is undefined in C; the
  embedding stops there with a `Fault`.  Accesses that stay inside the union are
  served from the word they address.  The one exception is the last iteration of the
  slot loop of `fs_create`, which tests and stores `block.inode[128]`, the eight words
  that follow the block on the stack: the loop has no stop there and goes on to its
  `return`, so the word tested is taken from the stack content (`create_slots`).
* C `int` arithmetic whose operands come from the caller or from the disk is wrapped
  to 32 bits (`wrap32`); `/` and `%` on `int` truncate toward zero (`Int.tdiv`,
  `Int.tmod`).  The bounded loop counters (`i`, `j`, `k`, `l`, `bytes_read`,
  `bytes_write`) are kept as mathematical integers.
* Local variables that the C code leaves uninitialised are passed in as a parameter
  named `stack`.
* Text written by `printf` is appended to `State.stdout`.
-/

namespace SimpleFS

/-! ## Constants of `fs.c` -/

/-- The constant `FS_MAGIC`, an `unsigned int` literal. -/
def FS_MAGIC : Int := 0xf0f03410

/-- The constant `INODES_PER_BLOCK`. -/
def INODES_PER_BLOCK : Int := 128

/-- The constant `POINTERS_PER_INODE`. -/
def POINTERS_PER_INODE : Int := 5

/-- The constant `POINTERS_PER_BLOCK`. -/
def POINTERS_PER_BLOCK : Int := 1024

/-- Modelled from the spec: `DISK_BLOCK_SIZE` of the absent `disk.h`; the block size is
4096 bytes, which is also `sizeof(union fs_block)`. -/
def DISK_BLOCK_SIZE : Int := 4096

/-- Reduction of an integer to the value a 32-bit two's complement `int` holds. -/
def wrap32 (x : Int) : Int := (x + 2147483648) % 4294967296 - 2147483648

/-- The macro `NUM_INODE_BLOCKS(disk_size_in_blocks)`. -/
def NUM_INODE_BLOCKS (disk_size_in_blocks : Int) : Int :=
  1 + Int.tdiv disk_size_in_blocks 10

/-- The expression `(size+4096-1)/sizeof(block)`: the `int` sum is converted to the
64-bit unsigned `size_t` of `sizeof` and divided there. -/
def size_in_blocks (size : Int) : Int :=
  (wrap32 (size + 4096 - 1) % 18446744073709551616) / 4096

/-! ## Data model -/

/-- Undefined behaviour the embedding stops at. -/
inductive Fault where
  /-- The call `disk_read` or `disk_write` with a block number outside the device. -/
  | disk (blocknum : Int)
  /-- A word access outside the 1024 words of a `union fs_block`. -/
  | block_word (idx : Int)
  /-- A byte access `data[j]` outside the 4096 bytes of a `union fs_block`. -/
  | block_byte (idx : Int)
  /-- An access `free_map[idx]` outside the allocated array. -/
  | free_map (idx : Int)
  deriving DecidableEq, Repr

/-- One `union fs_block`, as its 1024 words. -/
abbrev Block := Int → Int

/-- The record `struct fs_superblock` (words 0..3 of block 0). -/
structure fs_superblock where
  magic : Int
  nblocks : Int
  ninodeblocks : Int
  ninodes : Int

/-- The record `struct fs_inode` (8 words). -/
structure fs_inode where
  isvalid : Int
  size : Int
  direct : Int → Int
  indirect : Int

/-- The view `block.super`. -/
def Block.super (b : Block) : fs_superblock :=
  { magic := b 0, nblocks := b 1, ninodeblocks := b 2, ninodes := b 3 }

/-- The view `block.inode[j]` for a slot inside the block. -/
def Block.inode (b : Block) (j : Int) : fs_inode :=
  { isvalid := b (8 * j), size := b (8 * j + 1),
    direct := fun k => b (8 * j + 2 + k), indirect := b (8 * j + 7) }

/-- Read of the word at `idx` of a block. -/
def rd (b : Block) (idx : Int) : Except Fault Int :=
  if 0 ≤ idx ∧ idx < 1024 then .ok (b idx) else .error (.block_word idx)

/-- The block with the word at `idx` replaced, no bounds check. -/
def set_word (b : Block) (idx : Int) (v : Int) : Block :=
  fun w => if w = idx then v else b w

/-- Store of a word at `idx` of a block. -/
def wr (b : Block) (idx : Int) (v : Int) : Except Fault Block :=
  if 0 ≤ idx ∧ idx < 1024 then .ok (set_word b idx v) else .error (.block_word idx)

/-- The struct assignment `block.inode[j] = inode`, no bounds check. -/
def set_inode (b : Block) (j : Int) (inode : fs_inode) : Block :=
  fun w =>
    if 8 * j ≤ w ∧ w < 8 * j + 8 then
      if w = 8 * j then inode.isvalid
      else if w = 8 * j + 1 then inode.size
      else if w = 8 * j + 7 then inode.indirect
      else inode.direct (w - (8 * j + 2))
    else b w

/-- The byte `block.data[j]`, as a value in `0..255`. -/
def get_byte (b : Block) (j : Int) : Int :=
  (b (j / 4) / 256 ^ (j % 4).toNat) % 256

/-- The store `block.data[j] = v`. -/
def set_byte (b : Block) (j : Int) (v : Int) : Block :=
  fun w =>
    if w = j / 4 then
      wrap32 (b w + (v % 256 - (b w / 256 ^ (j % 4).toNat) % 256) * 256 ^ (j % 4).toNat)
    else b w

/-- Modelled from the spec: the block device of the absent `disk.c`, a fixed number of
blocks addressed by block number. -/
structure Disk where
  nblocks : Int
  blocks : Int → Block

/-- Modelled from the spec: `disk_size()` of the absent `disk.c`. -/
def disk_size (d : Disk) : Int := d.nblocks

/-- Modelled from the spec: `disk_read` of the absent `disk.c`; block indices are
bounded by the device's total block count. -/
def disk_read (d : Disk) (blocknum : Int) : Except Fault Block :=
  if 0 ≤ blocknum ∧ blocknum < d.nblocks then .ok (d.blocks blocknum)
  else .error (.disk blocknum)

/-- Modelled from the spec: `disk_write` of the absent `disk.c`. -/
def disk_write (d : Disk) (blocknum : Int) (b : Block) : Except Fault Disk :=
  if 0 ≤ blocknum ∧ blocknum < d.nblocks then
    .ok { d with blocks := fun k => if k = blocknum then b else d.blocks k }
  else .error (.disk blocknum)

/-- The array behind `static int *free_map`: `len` allocated cells. -/
structure FreeMap where
  len : Int
  cells : Int → Int

/-- The store `free_map[idx] = v`. -/
def FreeMap.set (m : FreeMap) (idx : Int) (v : Int) : Except Fault FreeMap :=
  if 0 ≤ idx ∧ idx < m.len then
    .ok { m with cells := fun k => if k = idx then v else m.cells k }
  else .error (.free_map idx)

/-- Number of cells of the free map that are marked used. -/
def FreeMap.used (m : FreeMap) : Nat :=
  ((List.range m.len.toNat).filter (fun i => m.cells (i : Int) ≠ 0)).length

/-- The program state: the device, the two globals of `fs.c` and the text printed. -/
structure State where
  disk : Disk
  mount_flag : Int
  free_map : FreeMap
  stdout : List String

/-- The call `printf(msg)`. -/
def State.printf (s : State) (msg : String) : State :=
  { s with stdout := s.stdout ++ [msg] }

/-! ## `fs_format` -/

/-- The loop `for (i = 0; i < INODES_PER_BLOCK; i++) block.inode[i] = inode;`. -/
def format_fill (inode : fs_inode) : Nat → Int → Block → Block
  | 0, _, block => block
  | n + 1, i, block => format_fill inode n (i + 1) (set_inode block i inode)

/-- The loop `for (i = 1; i < NUM_INODE_BLOCKS(disk_size())+1; i++) disk_write(i, block.data);`. -/
def format_blocks (block : Block) : Nat → Int → Disk → Except Fault Disk
  | 0, _, d => .ok d
  | n + 1, i, d => do
    let d ← disk_write d i block
    format_blocks block n (i + 1) d

/-- The function `fs_format`; `stack` is the uninitialised content of the local `block`. -/
def fs_format (stack : Block) (s : State) : Except Fault (Int × State) :=
  if s.mount_flag ≠ 0 then
    .ok (0, s.printf "Cannot format while mounted \n")
  else do
    let block : Block := stack
    let block := set_word block 1 (disk_size s.disk)
    let block := set_word block 2 (NUM_INODE_BLOCKS (disk_size s.disk))
    let block := set_word block 3 (wrap32 (block.super.ninodeblocks * 128))
    let block := set_word block 0 (wrap32 FS_MAGIC)
    let d ← disk_write s.disk 0 block
    let inode : fs_inode := { isvalid := 0, size := 0, direct := fun _ => 0, indirect := 0 }
    let block := format_fill inode 128 0 block
    let d ← format_blocks block (NUM_INODE_BLOCKS (disk_size s.disk) + 1 - 1).toNat 1 d
    .ok (1, { s with disk := d })

/-! ## `fs_mount` and `fs_unmount` -/

/-- The loops `for (k = 0; k < n; k++) free_map[block.inode[j].direct[k]] = v;` of
`fs_mount` (`v = 1`) and `fs_delete` (`v = 0`). -/
def mark_direct (block : Block) (j : Int) (v : Int) : Nat → Int → FreeMap → Except Fault FreeMap
  | 0, _, m => .ok m
  | n + 1, k, m => do
    let p ← rd block (8 * j + 2 + k)
    let m ← m.set p v
    mark_direct block j v n (k + 1) m

/-- The loops `for (l = 0; l < n; l++) free_map[indir.pointers[l]] = v;` of `fs_mount`
and `fs_delete`. -/
def mark_indirect (indir : Block) (v : Int) : Nat → Int → FreeMap → Except Fault FreeMap
  | 0, _, m => .ok m
  | n + 1, l, m => do
    let p ← rd indir l
    let m ← m.set p v
    mark_indirect indir v n (l + 1) m

/-- The body shared by `fs_mount` and `fs_delete` for one valid inode: every block the
inode holds gets `free_map[...] = v`. -/
def mark_inode (d : Disk) (block : Block) (j : Int) (v : Int) (m : FreeMap) :
    Except Fault FreeMap :=
  if size_in_blocks (block.inode j).size < POINTERS_PER_INODE then
    mark_direct block j v (size_in_blocks (block.inode j).size).toNat 0 m
  else do
    let m ← mark_direct block j v 5 0 m
    let m ← m.set (block.inode j).indirect v
    let indir ← disk_read d (block.inode j).indirect
    mark_indirect indir v (size_in_blocks (block.inode j).size - POINTERS_PER_INODE).toNat 0 m

/-- The loop `for (j = 0; j < INODES_PER_BLOCK; j++)` of `fs_mount`. -/
def mount_slots (d : Disk) (block : Block) : Nat → Int → FreeMap → Except Fault FreeMap
  | 0, _, m => .ok m
  | n + 1, j, m =>
    if (block.inode j).isvalid ≠ 0 then do
      let m ← mark_inode d block j 1 m
      mount_slots d block n (j + 1) m
    else mount_slots d block n (j + 1) m

/-- The loop `for (i = 1; i < block.super.ninodeblocks+1; i++)` of `fs_mount`.  The
bound is re-read from `block` on every test, and `block` is overwritten by the first
`disk_read(i, block.data)`: `bound` is the value of the current test. -/
def mount_blocks (d : Disk) : Nat → Int → Int → FreeMap → Except Fault FreeMap
  | 0, _, _, m => .ok m
  | n + 1, i, bound, m =>
    if i < bound then do
      let block ← disk_read d i
      let m ← mount_slots d block 128 0 m
      mount_blocks d n (i + 1) (wrap32 (block.super.ninodeblocks + 1)) m
    else .ok m

/-- The function `fs_mount`. -/
def fs_mount (s : State) : Except Fault (Int × State) :=
  if s.mount_flag = 1 then
    .ok (0, s.printf "already mounted\n")
  else do
    let block ← disk_read s.disk 0
    if block.super.magic % 4294967296 ≠ FS_MAGIC then
      .ok (0, s.printf "invalid magic number\n")
    else
      let m : FreeMap :=
        { len := wrap32 (block.super.nblocks - block.super.ninodeblocks), cells := fun _ => 0 }
      let m ← mount_blocks s.disk (2147483648 : Nat) 1 (wrap32 (block.super.ninodeblocks + 1)) m
      .ok (1, { s with free_map := m, mount_flag := 1 })

/-- The function `fs_unmount`; the freed map has no cell left. -/
def fs_unmount (s : State) : Except Fault (Int × State) :=
  if s.mount_flag ≠ 0 then
    .ok (1, { s with mount_flag := 0, free_map := { len := 0, cells := fun _ => 0 } })
  else
    .ok (0, s.printf "already unmounted\n")

/-! ## `fs_create`, `fs_delete`, `fs_getsize` -/

/-- The loop `for (j = 1; j <= INODES_PER_BLOCK; j++)` of `fs_create`; `stack` is the
stack content the function finds.  Its pointer words are the uninitialised content of
the local `inode`, of which only `isvalid` and `size` are set.  The last iteration,
`j = 128`, tests `block.inode[128].isvalid`, the word that follows `block` on the
stack: that word is `stack.isvalid`, which no other statement reads.  When it is 0 the
store `block.inode[128] = inode` lands past `block` as well and leaves the 1024 words
of `block` as they were read, and the loop returns the number `(i-1)*128 + 128`.
The result is `none` when the loop ends without a `return`. -/
def create_slots (stack : fs_inode) (d : Disk) (i : Int) (block : Block) :
    Nat → Int → Except Fault (Option (Int × Disk))
  | 0, _ => .ok none
  | n + 1, j =>
    if (if 0 ≤ j ∧ j < INODES_PER_BLOCK then block (8 * j) else stack.isvalid) = 0 then do
      let d ← disk_write d i
        (if 0 ≤ j ∧ j < INODES_PER_BLOCK then set_inode block j { stack with isvalid := 1, size := 0 }
         else block)
      .ok (some (wrap32 ((i - 1) * INODES_PER_BLOCK + j), d))
    else create_slots stack d i block n (j + 1)

/-- The loop `for (i = 1; i <= block.super.ninodeblocks; i++)` of `fs_create`.  The
bound is re-read from `block` on every test, and `block` is overwritten by
`disk_read(i, block.data)`: `bound` is the value of the current test. -/
def create_blocks (stack : fs_inode) (d : Disk) : Nat → Int → Int → Except Fault (Int × Disk)
  | 0, _, _ => .ok (-1, d)
  | n + 1, i, bound =>
    if i ≤ bound then do
      let block ← disk_read d i
      let r ← create_slots stack d i block 128 1
      match r with
      | some found => .ok found
      | none => create_blocks stack d n (i + 1) block.super.ninodeblocks
    else .ok (-1, d)

/-- The function `fs_create`. -/
def fs_create (stack : fs_inode) (s : State) : Except Fault (Int × State) :=
  if s.mount_flag = 0 then
    .ok (-1, s.printf "disk not mount\n")
  else do
    let block ← disk_read s.disk 0
    let r ← create_blocks stack s.disk (2147483648 : Nat) 1 block.super.ninodeblocks
    .ok (r.1, { s with disk := r.2 })

/-- The function `fs_delete`; `stack` is the uninitialised content of the local
`inode`, of which only `size` and `isvalid` are set. -/
def fs_delete (stack : fs_inode) (inumber : Int) (s : State) : Except Fault (Int × State) :=
  if s.mount_flag = 0 then
    .ok (0, s.printf "disk not mount\n")
  else do
    let block ← disk_read s.disk 0
    if inumber < 0 ∨ inumber > block.super.ninodes then
      .ok (0, s.printf "invalid inumber\n")
    else do
      let block ← disk_read s.disk (Int.tdiv inumber INODES_PER_BLOCK + 1)
      if (block.inode (Int.tmod inumber INODES_PER_BLOCK)).isvalid ≠ 0 then do
        let m ← mark_inode s.disk block (Int.tmod inumber INODES_PER_BLOCK) 0 s.free_map
        let d ← disk_write s.disk (Int.tdiv inumber INODES_PER_BLOCK + 1)
          (set_inode block (Int.tmod inumber INODES_PER_BLOCK)
            { stack with size := 0, isvalid := 0 })
        .ok (1, { s with disk := d, free_map := m })
      else .ok (1, s)

/-- The function `fs_getsize`. -/
def fs_getsize (inumber : Int) (s : State) : Except Fault (Int × State) :=
  if s.mount_flag = 0 then
    .ok (-1, s.printf "disk not mount\n")
  else do
    let block ← disk_read s.disk 0
    if inumber < 0 ∨ inumber > block.super.ninodes then
      .ok (-1, s.printf "invalid inumber\n")
    else do
      let block ← disk_read s.disk (Int.tdiv inumber INODES_PER_BLOCK + 1)
      if (block.inode (Int.tmod inumber INODES_PER_BLOCK)).isvalid ≠ 0 then
        .ok ((block.inode (Int.tmod inumber INODES_PER_BLOCK)).size, s)
      else .ok (-1, s)

/-! ## Block range of a transfer (shared by `fs_read` and `fs_write`) -/

/-- The value of `block_end` in `fs_read` and `fs_write` after the two `if` statements
that follow `block_end = (up_bound + 4096 - 1)/ DISK_BLOCK_SIZE`. -/
def block_end_of (up_bound block_start : Int) : Int :=
  if Int.tdiv (wrap32 (up_bound + 4096 - 1)) DISK_BLOCK_SIZE > POINTERS_PER_INODE
      ∧ block_start < POINTERS_PER_INODE then POINTERS_PER_INODE
  else Int.tdiv (wrap32 (up_bound + 4096 - 1)) DISK_BLOCK_SIZE

/-- The value of `indir_num` in `fs_read` and `fs_write` after the same two `if`
statements; the second one tests the `block_end` the first one may have set to 5. -/
def indir_num_of (up_bound block_start : Int) : Int :=
  if block_end_of up_bound block_start > POINTERS_PER_INODE
      ∧ block_start > POINTERS_PER_INODE then
    block_end_of up_bound block_start - block_start
  else if Int.tdiv (wrap32 (up_bound + 4096 - 1)) DISK_BLOCK_SIZE > POINTERS_PER_INODE
      ∧ block_start < POINTERS_PER_INODE then
    Int.tdiv (wrap32 (up_bound + 4096 - 1)) DISK_BLOCK_SIZE - POINTERS_PER_INODE
  else 0

/-- The value of `indir_start` in `fs_read` and `fs_write`. -/
def indir_start_of (block_start : Int) : Int :=
  if block_start > POINTERS_PER_INODE then block_start - 5 else 0

/-! ## `fs_read` -/

/-- The loop `for (j = byte_offset; j < DISK_BLOCK_SIZE; j++)` of `fs_read`, the same in
its direct and its indirect section.  The result is the caller's buffer, `bytes_read`,
and whether the loop left through `return bytes_read`. -/
def read_bytes (block_buffer : Block) (size length : Int) :
    Nat → Int → (Int → Int) → Int → (Int → Int) × Int × Bool
  | 0, _, data, bytes_read => (data, bytes_read, false)
  | n + 1, j, data, bytes_read =>
    if bytes_read + 1 = size ∨ bytes_read + 1 = length then
      (fun k => if k = bytes_read then get_byte block_buffer j else data k, bytes_read + 1, true)
    else
      read_bytes block_buffer size length n (j + 1)
        (fun k => if k = bytes_read then get_byte block_buffer j else data k) (bytes_read + 1)

/-- The loop `for (i = block_start; i < block_end; i++)` of `fs_read`.  The result is
the caller's buffer, `bytes_read`, `byte_offset`, and whether `fs_read` returned. -/
def read_direct (d : Disk) (block : Block) (inode_num size length : Int) :
    Nat → Int → Int → (Int → Int) → Int → Except Fault ((Int → Int) × Int × Int × Bool)
  | 0, _, byte_offset, data, bytes_read => .ok (data, bytes_read, byte_offset, false)
  | n + 1, i, byte_offset, data, bytes_read => do
    let p ← rd block (8 * inode_num + 2 + i)
    let block_buffer ← disk_read d p
    if byte_offset < 0 then .error (.block_byte byte_offset)
    else if (read_bytes block_buffer size length
        (DISK_BLOCK_SIZE - byte_offset).toNat byte_offset data bytes_read).2.2 then
      .ok ((read_bytes block_buffer size length
          (DISK_BLOCK_SIZE - byte_offset).toNat byte_offset data bytes_read).1,
        (read_bytes block_buffer size length
          (DISK_BLOCK_SIZE - byte_offset).toNat byte_offset data bytes_read).2.1, 0, true)
    else
      read_direct d block inode_num size length n (i + 1) 0
        (read_bytes block_buffer size length
          (DISK_BLOCK_SIZE - byte_offset).toNat byte_offset data bytes_read).1
        (read_bytes block_buffer size length
          (DISK_BLOCK_SIZE - byte_offset).toNat byte_offset data bytes_read).2.1

/-- The loop `for (l = 0; l < indir_num; l++)` of `fs_read`. -/
def read_indirect (d : Disk) (indir : Block) (indir_start size length : Int) :
    Nat → Int → Int → (Int → Int) → Int → Except Fault ((Int → Int) × Int × Int × Bool)
  | 0, _, byte_offset, data, bytes_read => .ok (data, bytes_read, byte_offset, false)
  | n + 1, l, byte_offset, data, bytes_read => do
    let p ← rd indir l
    let block_buffer ← disk_read d (wrap32 (p + indir_start))
    if byte_offset < 0 then .error (.block_byte byte_offset)
    else if (read_bytes block_buffer size length
        (DISK_BLOCK_SIZE - byte_offset).toNat byte_offset data bytes_read).2.2 then
      .ok ((read_bytes block_buffer size length
          (DISK_BLOCK_SIZE - byte_offset).toNat byte_offset data bytes_read).1,
        (read_bytes block_buffer size length
          (DISK_BLOCK_SIZE - byte_offset).toNat byte_offset data bytes_read).2.1, 0, true)
    else
      read_indirect d indir indir_start size length n (l + 1) 0
        (read_bytes block_buffer size length
          (DISK_BLOCK_SIZE - byte_offset).toNat byte_offset data bytes_read).1
        (read_bytes block_buffer size length
          (DISK_BLOCK_SIZE - byte_offset).toNat byte_offset data bytes_read).2.1

/-- The value of `up_bound` in `fs_read`. -/
def read_bound (size length offset : Int) : Int :=
  if wrap32 (offset + length) > size then size else wrap32 (offset + length)

/-- The indirect section of `fs_read` (from `if (indir_num > 0)`) and its final
`return 0`.  The result is the value returned and the caller's buffer. -/
def read_indirect_section (d : Disk) (block : Block)
    (inode_num indir_start indir_num size length byte_offset : Int)
    (data : Int → Int) (bytes_read : Int) : Except Fault (Int × (Int → Int)) :=
  if indir_num > 0 then do
    let indir ← disk_read d (block.inode inode_num).indirect
    let r ← read_indirect d indir indir_start size length indir_num.toNat 0
      byte_offset data bytes_read
    if r.2.2.2 then .ok (r.2.1, r.1) else .ok (0, r.1)
  else .ok (0, data)

/-- The part of `fs_read` after the test `offset > size-1`: both sections.  The result
is the value returned and the caller's buffer. -/
def read_data (d : Disk) (block : Block) (inode_num size length offset : Int)
    (data : Int → Int) : Except Fault (Int × (Int → Int)) := do
  let r ←
    if Int.tdiv offset DISK_BLOCK_SIZE < POINTERS_PER_INODE then
      read_direct d block inode_num size length
        (block_end_of (read_bound size length offset) (Int.tdiv offset DISK_BLOCK_SIZE)
          - Int.tdiv offset DISK_BLOCK_SIZE).toNat
        (Int.tdiv offset DISK_BLOCK_SIZE) (Int.tmod offset DISK_BLOCK_SIZE) data 0
    else .ok (data, 0, Int.tmod offset DISK_BLOCK_SIZE, false)
  if r.2.2.2 then .ok (r.2.1, r.1)
  else
    read_indirect_section d block inode_num (indir_start_of (Int.tdiv offset DISK_BLOCK_SIZE))
      (indir_num_of (read_bound size length offset) (Int.tdiv offset DISK_BLOCK_SIZE))
      size length r.2.2.1 r.1 r.2.1

/-- The function `fs_read`; `data` is the caller's buffer, returned with the bytes
stored into it. -/
def fs_read (inumber : Int) (data : Int → Int) (length offset : Int) (s : State) :
    Except Fault (Int × (Int → Int) × State) :=
  if s.mount_flag = 0 then
    .ok (0, data, s.printf "disk not mount\n")
  else do
    let block ← disk_read s.disk 0
    if inumber < 0 ∨ inumber > block.super.ninodes then
      .ok (0, data, s.printf "invalid inumber\n")
    else do
      let block ← disk_read s.disk (Int.tdiv inumber INODES_PER_BLOCK + 1)
      if (block.inode (Int.tmod inumber INODES_PER_BLOCK)).isvalid = 0 then
        .ok (0, data, s.printf "inode not valid\n")
      else if offset > wrap32 ((block.inode (Int.tmod inumber INODES_PER_BLOCK)).size - 1) then
        .ok (0, data, s)
      else do
        let r ← read_data s.disk block (Int.tmod inumber INODES_PER_BLOCK)
          (block.inode (Int.tmod inumber INODES_PER_BLOCK)).size length offset data
        .ok (r.1, r.2, s)

/-! ## `fs_write` -/

/-- The loop `for (j = byte_offset; j < DISK_BLOCK_SIZE; j++)` of the direct section of
`fs_write`.  The result is the block buffer and `bytes_write`. -/
def write_bytes_direct (data : Int → Int) (up_bound length : Int) :
    Nat → Int → Block → Int → Block × Int
  | 0, _, block_buffer, bytes_write => (block_buffer, bytes_write)
  | n + 1, j, block_buffer, bytes_write =>
    if bytes_write + 1 = up_bound ∨ bytes_write + 1 = length then
      (set_byte block_buffer j (data bytes_write), bytes_write + 1)
    else
      write_bytes_direct data up_bound length n (j + 1)
        (set_byte block_buffer j (data bytes_write)) (bytes_write + 1)

/-- The loop `for (j = byte_offset; j < DISK_BLOCK_SIZE; j++)` of the indirect section
of `fs_write`: the byte is stored before the test, and the test precedes the increment. -/
def write_bytes_indirect (data : Int → Int) (up_bound : Int) :
    Nat → Int → Block → Int → Block × Int
  | 0, _, block_buffer, bytes_write => (block_buffer, bytes_write)
  | n + 1, j, block_buffer, bytes_write =>
    if bytes_write = up_bound then
      (set_byte block_buffer j (data bytes_write), bytes_write)
    else
      write_bytes_indirect data up_bound n (j + 1)
        (set_byte block_buffer j (data bytes_write)) (bytes_write + 1)

/-- The loop `for (i = block_start; i < block_end; i++)` of `fs_write`.  The result is
the device, the inode block held in memory, `bytes_write` and `byte_offset`. -/
def write_direct (data : Int → Int) (up_bound length start inode_num : Int) :
    Nat → Int → Int → Disk → Block → Int → Except Fault (Disk × Block × Int × Int)
  | 0, _, byte_offset, d, block, bytes_write => .ok (d, block, bytes_write, byte_offset)
  | n + 1, i, byte_offset, d, block, bytes_write => do
    let block_buffer ← disk_read d (wrap32 (start + i))
    if byte_offset < 0 then .error (.block_byte byte_offset)
    else do
      let block ← wr block (8 * inode_num + 2 + i) (wrap32 (start + i))
      let d ← disk_write d (wrap32 (start + i))
        (write_bytes_direct data up_bound length
          (DISK_BLOCK_SIZE - byte_offset).toNat byte_offset block_buffer bytes_write).1
      if (write_bytes_direct data up_bound length
            (DISK_BLOCK_SIZE - byte_offset).toNat byte_offset block_buffer bytes_write).2 = up_bound
          ∨ (write_bytes_direct data up_bound length
            (DISK_BLOCK_SIZE - byte_offset).toNat byte_offset block_buffer bytes_write).2 = length then
        .ok (d, block, (write_bytes_direct data up_bound length
          (DISK_BLOCK_SIZE - byte_offset).toNat byte_offset block_buffer bytes_write).2, 0)
      else
        write_direct data up_bound length start inode_num n (i + 1) 0 d block
          (write_bytes_direct data up_bound length
            (DISK_BLOCK_SIZE - byte_offset).toNat byte_offset block_buffer bytes_write).2

/-- The loop `for (l = 0; l < indir_num; l++)` of `fs_write`.  The result is the
device, the indirect block held in memory and `bytes_write`. -/
def write_indirect (data : Int → Int) (up_bound indir_index indir_start : Int) :
    Nat → Int → Int → Disk → Block → Int → Except Fault (Disk × Block × Int)
  | 0, _, _, d, indir, bytes_write => .ok (d, indir, bytes_write)
  | n + 1, l, byte_offset, d, indir, bytes_write => do
    let block_buffer ← disk_read d (wrap32 (indir_index + l + 1 + indir_start))
    if byte_offset < 0 then .error (.block_byte byte_offset)
    else do
      let indir ← wr indir (l + indir_start) (wrap32 (indir_index + l + 1 + indir_start))
      let d ← disk_write d (wrap32 (indir_index + l + 1 + indir_start))
        (write_bytes_indirect data up_bound
          (DISK_BLOCK_SIZE - byte_offset).toNat byte_offset block_buffer bytes_write).1
      if (write_bytes_indirect data up_bound
          (DISK_BLOCK_SIZE - byte_offset).toNat byte_offset block_buffer bytes_write).2 = up_bound then
        .ok (d, indir, (write_bytes_indirect data up_bound
          (DISK_BLOCK_SIZE - byte_offset).toNat byte_offset block_buffer bytes_write).2)
      else
        write_indirect data up_bound indir_index indir_start n (l + 1) 0 d indir
          (write_bytes_indirect data up_bound
            (DISK_BLOCK_SIZE - byte_offset).toNat byte_offset block_buffer bytes_write).2

/-- The value of `up_bound` in `fs_write` after the clamp to the maximal file size. -/
def write_bound (length offset : Int) : Int :=
  if wrap32 (offset + length) > (1024 + 5) * 4096 then (1024 + 5) * 4096
  else wrap32 (offset + length)

/-- The expression `4096*(super_block.super.nblocks-super_block.super.ninodeblocks-1)`. -/
def write_capacity (super_block : Block) : Int :=
  wrap32 (4096 * wrap32 (wrap32 (super_block.super.nblocks - super_block.super.ninodeblocks) - 1))

/-- The indirect section of `fs_write` (from `if (indir_num > 0)`).  The result is the
device, the inode block held in memory and `bytes_write`. -/
def write_indirect_section (data : Int → Int)
    (up_bound inode_num indir_start indir_num byte_offset : Int)
    (d : Disk) (block : Block) (bytes_write : Int) : Except Fault (Disk × Block × Int) :=
  if indir_num > 0 then do
    let indir ← disk_read d (wrap32 ((block.inode inode_num).direct 0 + 5))
    let w ← write_indirect data up_bound (wrap32 ((block.inode inode_num).direct 0 + 5))
      indir_start indir_num.toNat 0 byte_offset d indir bytes_write
    let d ← disk_write w.1 (wrap32 ((block.inode inode_num).direct 0 + 5)) w.2.1
    .ok (d, set_word block (8 * inode_num + 7) (wrap32 ((block.inode inode_num).direct 0 + 5)),
      w.2.2)
  else .ok (d, block, bytes_write)

/-- The part of `fs_write` from `int start = ...` to the end of the indirect section.
The result is the device, the inode block held in memory and `bytes_write`. -/
def write_data (data : Int → Int) (up_bound length offset ninodeblocks inode_num : Int)
    (d : Disk) (block : Block) : Except Fault (Disk × Block × Int) := do
  let direct_block_start ← rd block (8 * inode_num + 2 + Int.tdiv offset DISK_BLOCK_SIZE)
  let r ←
    if Int.tdiv offset DISK_BLOCK_SIZE < POINTERS_PER_INODE then
      write_direct data up_bound length
        (wrap32 (wrap32 (direct_block_start + ninodeblocks) + 1)) inode_num
        (block_end_of up_bound (Int.tdiv offset DISK_BLOCK_SIZE)
          - Int.tdiv offset DISK_BLOCK_SIZE).toNat
        (Int.tdiv offset DISK_BLOCK_SIZE) (Int.tmod offset DISK_BLOCK_SIZE) d block 0
    else .ok (d, block, 0, Int.tmod offset DISK_BLOCK_SIZE)
  write_indirect_section data up_bound inode_num
    (indir_start_of (Int.tdiv offset DISK_BLOCK_SIZE))
    (indir_num_of up_bound (Int.tdiv offset DISK_BLOCK_SIZE)) r.2.2.2 r.1 r.2.1 r.2.2.1

/-- The end of `fs_write`, from `if (bytes_write > 0)`. -/
def write_finish (s : State) (target inode_num up_bound length : Int)
    (d : Disk) (block : Block) (bytes_write : Int) : Except Fault (Int × State) :=
  if bytes_write > 0 then do
    let d ← disk_write d target
      (set_word block (8 * inode_num + 1) (wrap32 ((block.inode inode_num).size + bytes_write)))
    if bytes_write = up_bound ∨ bytes_write = length then .ok (bytes_write, { s with disk := d })
    else .ok (0, { s with disk := d })
  else .ok (0, { s with disk := d })

/-- The part of `fs_write` after the clamps of `up_bound`. -/
def write_body (s : State) (up_bound : Int) (super_block block : Block)
    (inumber : Int) (data : Int → Int) (length offset : Int) : Except Fault (Int × State) := do
  let r ← write_data data up_bound length offset super_block.super.ninodeblocks
    (Int.tmod inumber INODES_PER_BLOCK) s.disk block
  write_finish s (Int.tdiv inumber INODES_PER_BLOCK + 1) (Int.tmod inumber INODES_PER_BLOCK)
    up_bound length r.1 r.2.1 r.2.2

/-- The function `fs_write`; `data` is the caller's buffer. -/
def fs_write (inumber : Int) (data : Int → Int) (length offset : Int) (s : State) :
    Except Fault (Int × State) :=
  if s.mount_flag = 0 then
    .ok (0, s.printf "disk not mount\n")
  else do
    let super_block ← disk_read s.disk 0
    if inumber < 0 ∨ inumber > super_block.super.ninodes then
      .ok (0, s.printf "invalid inumber\n")
    else do
      let block ← disk_read s.disk (Int.tdiv inumber INODES_PER_BLOCK + 1)
      if (block.inode (Int.tmod inumber INODES_PER_BLOCK)).isvalid = 0 then
        .ok (0, s.printf "inode not valid\n")
      else if offset > (block.inode (Int.tmod inumber INODES_PER_BLOCK)).size then
        .ok (0, s.printf "attemp to write sparse file")
      else if write_bound length offset > write_capacity super_block then
        write_body (s.printf "disk small\n") (write_capacity super_block) super_block block
          inumber data length offset
      else
        write_body s (write_bound length offset) super_block block inumber data length offset

/-! ## Observations on results and concrete volumes -/

/-- The value a call returned, if it did not fault. -/
def retval {α : Type} (r : Except Fault (Int × α)) : Option Int :=
  match r with
  | .ok v => some v.1
  | .error _ => none

/-- The fault a call stopped at, if any. -/
def fault {α : Type} (r : Except Fault α) : Option Fault :=
  match r with
  | .ok _ => none
  | .error e => some e

/-- The state after a call on `s`; the state is `s` itself when the call faulted. -/
def after (s : State) (r : Except Fault (Int × State)) : State :=
  match r with
  | .ok v => v.2
  | .error _ => s

/-- A block of zero bytes. -/
def zero_block : Block := fun _ => 0

/-- An inode record of zero words. -/
def zero_inode : fs_inode := { isvalid := 0, size := 0, direct := fun _ => 0, indirect := 0 }

/-- An unmounted device of `n` zero-filled blocks. -/
def blank (n : Int) : State :=
  { disk := { nblocks := n, blocks := fun _ => zero_block },
    mount_flag := 0, free_map := { len := 0, cells := fun _ => 0 }, stdout := [] }

/-- The volume of `n` blocks right after `fs_format` and `fs_mount`. -/
def fresh (n : Int) : State :=
  after (after (blank n) (fs_format zero_block (blank n)))
    (fs_mount (after (blank n) (fs_format zero_block (blank n))))

/-- The inode record stored on the device for `inumber`. -/
def inode_of (s : State) (inumber : Int) : fs_inode :=
  (s.disk.blocks (Int.tdiv inumber INODES_PER_BLOCK + 1)).inode (Int.tmod inumber INODES_PER_BLOCK)

/-- The superblock stored on the device. -/
def super_of (s : State) : fs_superblock := (s.disk.blocks 0).super

/-- An inode record whose pointer words all hold 100, as left-over stack content. -/
def junk_inode : fs_inode := { isvalid := 0, size := 0, direct := fun _ => 100, indirect := 100 }

/-- A caller buffer holding the byte `0x41` at every position. -/
def pattern41 : Int → Int := fun _ => 0x41

/-- A caller buffer of zero bytes. -/
def zero_buffer : Int → Int := fun _ => 0

/-- The fresh volume of `n` blocks after one `fs_create` (zero-filled stack). -/
def vol_created (n : Int) : State := after (fresh n) (fs_create zero_inode (fresh n))

/-- The volume `vol_created n` after `fs_write(1, data, len, 0)` with `0x41` bytes. -/
def vol_written (n len : Int) : State :=
  after (vol_created n) (fs_write 1 pattern41 len 0 (vol_created n))

/-- The 9-block volume after create, a one-byte write, a second create and a one-byte
write to the second inode. -/
def two_files : State :=
  after (after (vol_written 9 1) (fs_create zero_inode (vol_written 9 1)))
    (fs_write 2 pattern41 1 0 (after (vol_written 9 1) (fs_create zero_inode (vol_written 9 1))))

/-- The block numbers an inode references, in the words of the specification: the
direct pointers in use, and for a file of more than 5 blocks the indirect block and its
entries in use. -/
def referenced (s : State) (inumber : Int) : List Int :=
  if size_in_blocks (inode_of s inumber).size ≤ 5 then
    (List.range (size_in_blocks (inode_of s inumber).size).toNat).map
      (fun k => (inode_of s inumber).direct k)
  else
    (List.range 5).map (fun k => (inode_of s inumber).direct k)
      ++ [(inode_of s inumber).indirect]
      ++ (List.range (size_in_blocks (inode_of s inumber).size - 5).toNat).map
          (fun l => s.disk.blocks (inode_of s inumber).indirect l)

/-- An inode record whose pointer words all hold -1, as left-over stack content. -/
def minus_one_inode : fs_inode :=
  { isvalid := 0, size := 0, direct := fun _ => -1, indirect := -1 }

/-- The state `s` after `fs_unmount`. -/
def unmounted (s : State) : State := after s (fs_unmount s)

/-- The state `s` after `fs_write(1, data, 1, 0)` with a `0x41` byte. -/
def overwritten (s : State) : State := after s (fs_write 1 pattern41 1 0 s)

/-- The indices of the free-map cells that are marked used. -/
def FreeMap.marked (m : FreeMap) : List Int :=
  ((List.range m.len.toNat).filter (fun i => m.cells (i : Int) ≠ 0)).map (fun i => (i : Int))

/-- The content of the local `block` of `fs_format` when it is written to block 0: the
four superblock words over the uninitialised `stack`. -/
def format_super (stack : Block) (nblocks : Int) : Block :=
  set_word (set_word (set_word (set_word stack 1 nblocks) 2 (NUM_INODE_BLOCKS nblocks)) 3
    (wrap32 (NUM_INODE_BLOCKS nblocks * 128))) 0 (wrap32 FS_MAGIC)

/-- The caller's buffer after a call of `fs_read`; all -1 when the call faulted. -/
def buffer_after (r : Except Fault (Int × (Int → Int) × State)) : Int → Int :=
  match r with
  | .ok v => v.2.1
  | .error _ => fun _ => -1

/-- The volume `s` after `k` further calls of `fs_create` (zero-filled stack). -/
def created : Nat → State → State
  | 0, s => s
  | k + 1, s => created k (after s (fs_create zero_inode s))

/-- An inode record whose pointer words all hold 100000, as left-over stack content. -/
def far_inode : fs_inode :=
  { isvalid := 0, size := 0, direct := fun _ => 100000, indirect := 100000 }

/-- An inode record whose direct words hold 0 and whose indirect word holds 100, as
left-over stack content. -/
def stale_indirect : fs_inode := { isvalid := 0, size := 0, direct := fun _ => 0, indirect := 100 }

/-- The 9-block volume after `fs_create` over the stack content `stale_indirect` and a
write of exactly five blocks of `0x41` bytes to the new inode. -/
def five_blocks_stale : State :=
  after (after (fresh 9) (fs_create stale_indirect (fresh 9)))
    (fs_write 1 pattern41 20480 0 (after (fresh 9) (fs_create stale_indirect (fresh 9))))

/-! ## Basic facts -/

theorem wrap32_of_range {x : Int} (h1 : -2147483648 ≤ x) (h2 : x < 2147483648) :
    wrap32 x = x := by
  unfold wrap32; omega

theorem bind_ok_eq {α β : Type} (a : α) (f : α → Except Fault β) :
    ((Except.ok a : Except Fault α) >>= f) = f a := rfl

theorem bind_eq_ok {α β : Type} (x : Except Fault α) (f : α → Except Fault β) (b : β) :
    (x >>= f) = .ok b ↔ ∃ a, x = .ok a ∧ f a = .ok b := by
  cases x <;> simp [bind, Except.bind]

theorem disk_read_ok {d : Disk} {b : Int} (h1 : 0 ≤ b) (h2 : b < d.nblocks) :
    disk_read d b = .ok (d.blocks b) := by
  simp [disk_read, h1, h2]

theorem disk_write_ok {d : Disk} {b : Int} (blk : Block) (h1 : 0 ≤ b) (h2 : b < d.nblocks) :
    disk_write d b blk
      = .ok { d with blocks := fun k => if k = b then blk else d.blocks k } := by
  simp [disk_write, h1, h2]

theorem tdiv_128_nonneg {inumber : Int} (h : 0 ≤ inumber) :
    0 ≤ Int.tdiv inumber INODES_PER_BLOCK + 1 := by
  have := Int.tdiv_nonneg h (show (0 : Int) ≤ INODES_PER_BLOCK by decide)
  omega

/-- The end of `fs_write` prints nothing. -/
theorem write_finish_stdout {s s' : State} {target inode_num up_bound length : Int}
    {d : Disk} {block : Block} {bytes_write r : Int}
    (h : write_finish s target inode_num up_bound length d block bytes_write = .ok (r, s')) :
    s'.stdout = s.stdout := by
  unfold write_finish at h
  split at h
  · rw [bind_eq_ok] at h
    obtain ⟨d', -, h⟩ := h
    split at h <;>
      (simp only [Except.ok.injEq, Prod.mk.injEq] at h; obtain ⟨-, rfl⟩ := h; rfl)
  · simp only [Except.ok.injEq, Prod.mk.injEq] at h; obtain ⟨-, rfl⟩ := h; rfl

/-- The transfer part of `fs_write` prints nothing. -/
theorem write_body_stdout {s s' : State} {up_bound : Int} {super_block block : Block}
    {inumber : Int} {data : Int → Int} {length offset r : Int}
    (h : write_body s up_bound super_block block inumber data length offset = .ok (r, s')) :
    s'.stdout = s.stdout := by
  unfold write_body at h
  rw [bind_eq_ok] at h
  obtain ⟨a, -, h⟩ := h
  exact write_finish_stdout h

/-- Byte count of the direct byte loop of `fs_write` when none of its `n` iterations
reaches `up_bound` or `length`. -/
theorem write_bytes_direct_count (data : Int → Int) (up_bound length : Int) :
    ∀ (n : Nat) (j : Int) (buf : Block) (bw : Int),
      (∀ t : Int, 1 ≤ t → t ≤ n → bw + t ≠ up_bound ∧ bw + t ≠ length) →
      (write_bytes_direct data up_bound length n j buf bw).2 = bw + n := by
  intro n
  induction n with
  | zero => intro j buf bw _; simp [write_bytes_direct]
  | succ n ih =>
    intro j buf bw h
    have h1 := h 1 (le_refl _) (by push_cast; omega)
    rw [write_bytes_direct, if_neg (by omega), ih]
    · push_cast; omega
    · intro t ht1 ht2
      have := h (t + 1) (by omega) (by push_cast; omega)
      constructor <;> omega

/-- Byte count of the indirect byte loop of `fs_write` when none of its `n` iterations
starts at `up_bound`. -/
theorem write_bytes_indirect_count (data : Int → Int) (up_bound : Int) :
    ∀ (n : Nat) (j : Int) (buf : Block) (bw : Int),
      (∀ t : Int, 0 ≤ t → t < n → bw + t ≠ up_bound) →
      (write_bytes_indirect data up_bound n j buf bw).2 = bw + n := by
  intro n
  induction n with
  | zero => intro j buf bw _; simp [write_bytes_indirect]
  | succ n ih =>
    intro j buf bw h
    have h1 := h 0 (le_refl _) (by push_cast; omega)
    rw [write_bytes_indirect, if_neg (by omega), ih]
    · push_cast; omega
    · intro t ht1 ht2
      have := h (t + 1) (by omega) (by push_cast; omega)
      omega

/-- The direct loop of `fs_write` over `n` whole blocks that exist on the device: it
advances `bytes_write` by `4096 * n` and records `start + i` in each direct pointer. -/
theorem write_direct_full (data : Int → Int) (up_bound length start slot : Int) :
    ∀ (n : Nat) (i : Int) (d : Disk) (block : Block) (bw : Int),
      0 ≤ start + i → start + i + n ≤ d.nblocks → d.nblocks < 2147483648 →
      0 ≤ 8 * slot + 2 + i → 8 * slot + 2 + i + n ≤ 1024 →
      bw + 4096 * n < up_bound → bw + 4096 * n < length →
      ∃ d' block', write_direct data up_bound length start slot n i 0 d block bw
          = .ok (d', block', bw + 4096 * n, 0)
        ∧ d'.nblocks = d.nblocks
        ∧ ∀ w, block' w = if 8 * slot + 2 + i ≤ w ∧ w < 8 * slot + 2 + i + n
            then start + (w - (8 * slot + 2)) else block w := by
  intro n
  induction n with
  | zero =>
    intro i d block bw _ _ _ _ _ _ _
    refine ⟨d, block, by simp [write_direct], rfl, ?_⟩
    intro w
    rw [if_neg]
    push_cast; omega
  | succ n ih =>
    intro i d block bw h1 h2 h3 h4 h5 h6 h7
    push_cast at h2 h5 h6 h7
    have hw : wrap32 (start + i) = start + i := wrap32_of_range (by omega) (by omega)
    have hcount := write_bytes_direct_count data up_bound length 4096 0 (d.blocks (start + i)) bw
      (by intro t ht1 ht2; push_cast at ht2; constructor <;> omega)
    push_cast at hcount
    rw [write_direct, hw, disk_read_ok h1 (by omega), bind_ok_eq, if_neg (by norm_num)]
    simp only [wr, show (0 ≤ 8 * slot + 2 + i ∧ 8 * slot + 2 + i < 1024) from ⟨h4, by omega⟩,
      and_self, if_true, bind_ok_eq]
    rw [disk_write_ok _ h1 (by omega), bind_ok_eq]
    simp only [DISK_BLOCK_SIZE, sub_zero, show (4096 : Int).toNat = 4096 from rfl, hcount]
    rw [if_neg (by omega)]
    obtain ⟨d', block', hrun, hnb, hblk⟩ := ih (i + 1)
      { d with blocks := fun k => if k = start + i
          then (write_bytes_direct data up_bound length 4096 0 (d.blocks (start + i)) bw).1
          else d.blocks k }
      (set_word block (8 * slot + 2 + i) (start + i)) (bw + 4096)
      (by omega) (by simp only; omega) (by simp only; omega) (by omega) (by omega)
      (by omega) (by omega)
    have e : bw + 4096 * ((n + 1 : Nat) : Int) = bw + 4096 + 4096 * n := by push_cast; ring
    refine ⟨d', block', ?_, hnb, ?_⟩
    · rw [e]; exact hrun
    · intro w
      rw [hblk w]
      simp only [set_word]
      by_cases hw1 : w = 8 * slot + 2 + i
      · subst hw1
        rw [if_neg (by omega), if_pos rfl, if_pos (by push_cast; omega)]
        omega
      · by_cases hw2 : 8 * slot + 2 + (i + 1) ≤ w ∧ w < 8 * slot + 2 + (i + 1) + n
        · rw [if_pos hw2, if_pos (by push_cast; omega)]
        · rw [if_neg hw2, if_neg hw1, if_neg (by push_cast; omega)]

/-- The indirect loop of `fs_write` over `n` whole blocks that exist on the device: it
advances `bytes_write` by `4096 * n` as long as that does not pass `up_bound`. -/
theorem write_indirect_full (data : Int → Int) (up_bound idx istart : Int) :
    ∀ (n : Nat) (l : Int) (d : Disk) (indir : Block) (bw : Int),
      0 ≤ idx + l + 1 + istart → idx + l + 1 + istart + n ≤ d.nblocks →
      d.nblocks < 2147483648 →
      0 ≤ l + istart → l + istart + n ≤ 1024 →
      bw + 4096 * n ≤ up_bound →
      ∃ d' indir', write_indirect data up_bound idx istart n l 0 d indir bw
          = .ok (d', indir', bw + 4096 * n)
        ∧ d'.nblocks = d.nblocks
        ∧ ∀ w, indir' w = if l + istart ≤ w ∧ w < l + istart + n
            then idx + 1 + w else indir w := by
  intro n
  induction n with
  | zero =>
    intro l d indir bw _ _ _ _ _ _
    refine ⟨d, indir, by simp [write_indirect], rfl, ?_⟩
    intro w
    rw [if_neg]
    push_cast; omega
  | succ n ih =>
    intro l d indir bw h1 h2 h3 h4 h5 h6
    push_cast at h2 h5 h6
    have hw : wrap32 (idx + l + 1 + istart) = idx + l + 1 + istart :=
      wrap32_of_range (by omega) (by omega)
    have hcount := write_bytes_indirect_count data up_bound 4096 0
      (d.blocks (idx + l + 1 + istart)) bw
      (by intro t ht1 ht2; push_cast at ht2; omega)
    push_cast at hcount
    rw [write_indirect, hw, disk_read_ok h1 (by omega), bind_ok_eq, if_neg (by norm_num)]
    simp only [wr, show (0 ≤ l + istart ∧ l + istart < 1024) from ⟨h4, by omega⟩,
      and_self, if_true, bind_ok_eq]
    rw [disk_write_ok _ h1 (by omega), bind_ok_eq]
    simp only [DISK_BLOCK_SIZE, sub_zero, show (4096 : Int).toNat = 4096 from rfl, hcount]
    have hset : ∀ w, set_word indir (l + istart) (idx + l + 1 + istart) w
        = if l + istart ≤ w ∧ w < l + istart + 1 then idx + 1 + w else indir w := by
      intro w
      simp only [set_word]
      by_cases hw1 : w = l + istart
      · subst hw1; rw [if_pos rfl, if_pos (by omega)]; omega
      · rw [if_neg hw1, if_neg (by omega)]
    by_cases hstop : bw + 4096 = up_bound
    · rw [if_pos hstop]
      have hn : (n : Int) = 0 := by omega
      have e : bw + 4096 * ((n + 1 : Nat) : Int) = bw + 4096 := by push_cast; omega
      refine ⟨{ d with blocks := fun k => if k = idx + l + 1 + istart
            then (write_bytes_indirect data up_bound 4096 0
              (d.blocks (idx + l + 1 + istart)) bw).1
            else d.blocks k },
        set_word indir (l + istart) (idx + l + 1 + istart), by rw [e], rfl, ?_⟩
      intro w; rw [hset w]; push_cast; rw [hn, zero_add]
    · rw [if_neg hstop]
      obtain ⟨d', indir', hrun, hnb, hblk⟩ := ih (l + 1)
        { d with blocks := fun k => if k = idx + l + 1 + istart
            then (write_bytes_indirect data up_bound 4096 0
              (d.blocks (idx + l + 1 + istart)) bw).1
            else d.blocks k }
        (set_word indir (l + istart) (idx + l + 1 + istart)) (bw + 4096)
        (by omega) (by simp only; omega) (by simp only; omega) (by omega) (by omega)
        (by omega)
      have e : bw + 4096 * ((n + 1 : Nat) : Int) = bw + 4096 + 4096 * n := by push_cast; ring
      refine ⟨d', indir', ?_, hnb, ?_⟩
      · rw [e]; exact hrun
      · intro w
        rw [hblk w, hset w]
        by_cases hw1 : w = l + istart
        · subst hw1
          rw [if_neg (by omega), if_pos (by omega), if_pos (by push_cast; omega)]
        · by_cases hw2 : l + 1 + istart ≤ w ∧ w < l + 1 + istart + n
          · rw [if_pos hw2, if_pos (by push_cast; omega)]
          · rw [if_neg hw2, if_neg (by omega), if_neg (by push_cast; omega)]

theorem tmod_128_range {inumber : Int} (h : 0 ≤ inumber) :
    0 ≤ Int.tmod inumber INODES_PER_BLOCK ∧ Int.tmod inumber INODES_PER_BLOCK < 128 := by
  rw [INODES_PER_BLOCK, Int.tmod_eq_emod h (by norm_num)]
  omega

/-- A call that returned `n` is `ok` with the state `after` extracts. -/
theorem ok_of_retval {s : State} {r : Except Fault (Int × State)} {n : Int}
    (h : retval r = some n) : r = .ok (n, after s r) := by
  cases r with
  | error e => simp [retval] at h
  | ok v =>
    simp only [retval, Option.some.injEq] at h
    subst h
    rfl

/-! ## The claims -/

set_option maxHeartbeats 4000000

/-- Claim C1, evaluated where the code departs from it: on a formatted and mounted
8-block volume (superblock: 8 blocks, 1 inode block, so a data region of 6 blocks) the
inode returned by `fs_create` is 1, and `fs_write` of `6*4096` bytes `0x41` at offset 0,
a length equal to the data-region capacity, does not return `6*4096`: after the five
direct blocks 2..6 and the indirect block 7 it calls `disk_read` on block 8, which the
device does not have.  And when the stack left 100 in the pointer words that `fs_create`
does not initialise, a one-byte write to the new inode of a 9-block volume calls
`disk_read` on block 102. -/
theorem round_trip_leaves_device_at_capacity :
    (super_of (vol_created 8)).nblocks = 8
      ∧ (super_of (vol_created 8)).ninodeblocks = 1
      ∧ retval (fs_create zero_inode (fresh 8)) = some 1
      ∧ write_capacity ((vol_created 8).disk.blocks 0) = 6 * 4096
      ∧ fault (fs_write 1 pattern41 (6 * 4096) 0 (vol_created 8)) = some (Fault.disk 8)
      ∧ retval (fs_create junk_inode (fresh 9)) = some 1
      ∧ fault (fs_write 1 pattern41 1 0 (after (fresh 9) (fs_create junk_inode (fresh 9))))
          = some (Fault.disk 102) := by
  decide!

/-- Claim C2, evaluated where the code departs from it: on a 9-block volume, after
`fs_create`, a one-byte `fs_write`, a second `fs_create` and a one-byte `fs_write` to the
second inode, the inodes 1 and 2 are both valid and both reference block 2. -/
theorem two_files_share_a_block :
    (inode_of two_files 1).isvalid = 1 ∧ (inode_of two_files 2).isvalid = 1
      ∧ referenced two_files 1 = [2] ∧ referenced two_files 2 = [2] := by
  decide!

/-- Claim C3, evaluated where the code departs from it: on a fresh 9-block volume,
`fs_write` of `6*4096` bytes to a new file returns `6*4096` and leaves the inode holding
the blocks 2..8 (five direct, the indirect block 7, one indirect entry), yet no cell of
the free map is marked used: block 2 is held by a valid inode and `free_map[2]` is 0. -/
theorem write_leaves_free_map_unmarked :
    retval (fs_write 1 pattern41 (6 * 4096) 0 (vol_created 9)) = some (6 * 4096)
      ∧ (inode_of (vol_written 9 (6 * 4096)) 1).isvalid = 1
      ∧ referenced (vol_written 9 (6 * 4096)) 1 = [2, 3, 4, 5, 6, 7, 8]
      ∧ (vol_written 9 (6 * 4096)).free_map.cells 2 = 0
      ∧ (vol_written 9 (6 * 4096)).free_map.used = 0 := by
  decide!

/-- Claim C4, evaluated where the code departs from it: for a file of stored size 5,
`fs_read(1, buf, 10, 1)` returns 5, one more than the `min(1 + 10, 5) - 1 = 4` bytes the
file has from offset 1. -/
theorem read_counts_past_end_of_file :
    retval (fs_getsize 1 (vol_written 9 5)) = some 5
      ∧ retval (fs_read 1 zero_buffer 10 1 (vol_written 9 5)) = some 5 := by
  decide!

/-- The capacity clamp of `fs_write` where every block the call addresses is on the
device: on a mounted volume, for a valid inode of size 0, when the device-capacity clamp
`4096*(nblocks-ninodeblocks-1)` is a representable `int` not below `(5+1024)*4096`, and
the blocks from `direct[0] + ninodeblocks + 1` on, five direct, the indirect block and
1024 more, exist on the device, `fs_write` of `(5+1024)*4096 + 1` bytes at offset 0
returns exactly `(5+1024)*4096`, the inode's stored size afterwards is exactly
`(5+1024)*4096`, and nothing is printed.  The hypotheses on `direct[0]` do not hold of
every empty inode, since `fs_create` leaves the pointer words as it finds them. -/
theorem fs_write_capacity_boundary (s : State) (inumber : Int) (data : Int → Int)
    (hm : s.mount_flag ≠ 0)
    (hlo : 0 ≤ inumber) (hhi : inumber < (super_of s).ninodes)
    (htarget : Int.tdiv inumber INODES_PER_BLOCK + 1 < s.disk.nblocks)
    (hvalid : (inode_of s inumber).isvalid ≠ 0)
    (hsize : (inode_of s inumber).size = 0)
    (hcap : 5 + 1024 ≤ (super_of s).nblocks - (super_of s).ninodeblocks - 1)
    (hcap32 : 4096 * ((super_of s).nblocks - (super_of s).ninodeblocks - 1) < 2147483648)
    (hfirst : 0 ≤ (inode_of s inumber).direct 0 + (super_of s).ninodeblocks + 1)
    (hlast : (inode_of s inumber).direct 0 + (super_of s).ninodeblocks + 1 + (5 + 1024)
      < s.disk.nblocks)
    (hdev : s.disk.nblocks < 2147483648) :
    ∃ s', fs_write inumber data ((5 + 1024) * 4096 + 1) 0 s = .ok ((5 + 1024) * 4096, s')
      ∧ (inode_of s' inumber).size = (5 + 1024) * 4096
      ∧ s'.stdout = s.stdout := by
  have ht0 := tdiv_128_nonneg hlo
  obtain ⟨hs0, hs1⟩ := tmod_128_range hlo
  have h0 : disk_read s.disk 0 = .ok (s.disk.blocks 0) := disk_read_ok (le_refl _) (by omega)
  have h1 := disk_read_ok (d := s.disk) ht0 htarget
  simp only [super_of, inode_of, Block.super, Block.inode] at hhi hvalid hsize hcap hcap32 hfirst hlast
  generalize hslot : Int.tmod inumber INODES_PER_BLOCK = slot at *
  generalize htgt : Int.tdiv inumber INODES_PER_BLOCK + 1 = target at *
  generalize hblk : s.disk.blocks target = blk at *
  generalize hsb : s.disk.blocks 0 = sb at *
  have hbound : write_bound ((5 + 1024) * 4096 + 1) 0 = 4214784 := by decide
  have hcapv : write_capacity sb = 4096 * (sb 1 - sb 2 - 1) := by
    simp only [write_capacity, Block.super]
    rw [wrap32_of_range (x := sb 1 - sb 2) (by omega) (by omega),
      wrap32_of_range (x := sb 1 - sb 2 - 1) (by omega) (by omega),
      wrap32_of_range (by omega) (by omega)]
  have hstart : wrap32 (wrap32 (blk (8 * slot + 2 + 0) + sb 2) + 1)
      = blk (8 * slot + 2 + 0) + sb 2 + 1 := by
    rw [wrap32_of_range (x := blk (8 * slot + 2 + 0) + sb 2) (by omega) (by omega),
      wrap32_of_range (by omega) (by omega)]
  generalize hst : blk (8 * slot + 2 + 0) + sb 2 + 1 = start at *
  -- the direct section: five whole blocks
  obtain ⟨d5, block5, hrun5, hnb5, hblock5⟩ :=
    write_direct_full data 4214784 ((5 + 1024) * 4096 + 1) start slot 5 0 s.disk blk 0
      (by omega) (by push_cast; omega) hdev (by omega) (by push_cast; omega)
      (by norm_num) (by norm_num)
  have hd0 : block5 (8 * slot + 2 + 0) = start := by
    rw [hblock5, if_pos (by push_cast; omega)]; omega
  -- the indirect section: 1024 whole blocks
  obtain ⟨d6, indir6, hrun6, hnb6, -⟩ :=
    write_indirect_full data 4214784 (start + 5) 0 1024 0 d5 (d5.blocks (start + 5))
      (0 + 4096 * ((5 : Nat) : Int))
      (by omega) (by rw [hnb5]; push_cast; omega) (by rw [hnb5]; exact hdev)
      (by norm_num) (by norm_num) (by norm_num)
  have hidx : wrap32 (block5 (8 * slot + 2 + 0) + 5) = start + 5 := by
    rw [hd0, wrap32_of_range (by omega) (by omega)]
  have hsz5 : block5 (8 * slot + 1) = 0 := by
    rw [hblock5, if_neg (by omega)]; exact hsize
  have hfirst_goal : fs_write inumber data ((5 + 1024) * 4096 + 1) 0 s
      = .ok ((5 + 1024) * 4096,
        { s with
          disk :=
            { nblocks := d6.nblocks
              blocks := fun k =>
                if k = target then
                  set_word (set_word block5 (8 * slot + 7) (start + 5)) (8 * slot + 1)
                    (wrap32 (block5 (8 * slot + 1) + (5 + 1024) * 4096))
                else if k = start + 5 then indir6 else d6.blocks k } }) := by
    unfold fs_write
    simp only [htgt, hslot]
    rw [if_neg hm, h0, bind_ok_eq, if_neg (by simp only [Block.super]; omega), h1, bind_ok_eq,
      if_neg (by simp only [Block.inode]; exact hvalid),
      if_neg (by simp only [Block.inode]; rw [hsize]; norm_num),
      hbound, hcapv, if_neg (by omega)]
    unfold write_body write_data
    simp only [Block.super, htgt, hslot]
    have hbs : Int.tdiv 0 DISK_BLOCK_SIZE = 0 := by decide
    have hbo : Int.tmod 0 DISK_BLOCK_SIZE = 0 := by decide
    have hbe : (block_end_of 4214784 0 - 0).toNat = 5 := by decide
    have hin : indir_num_of 4214784 0 = 1024 := by decide
    have his : indir_start_of 0 = 0 := by decide
    rw [hbs, hbo, hbe, hin, his]
    simp only [rd, show (0 ≤ 8 * slot + 2 + 0 ∧ 8 * slot + 2 + 0 < 1024) from ⟨by omega, by omega⟩,
      and_self, if_true, bind_ok_eq, hstart, hst]
    rw [if_pos (by decide), hrun5, bind_ok_eq]
    unfold write_indirect_section
    simp only [Block.inode]
    rw [if_pos (by norm_num), hidx, disk_read_ok (by omega) (by rw [hnb5]; omega), bind_ok_eq,
      show (1024 : Int).toNat = 1024 from rfl, hrun6, bind_ok_eq,
      disk_write_ok _ (by omega) (by rw [hnb6, hnb5]; omega), bind_ok_eq, bind_ok_eq]
    unfold write_finish
    simp only [Block.inode, set_word]
    rw [if_pos (by norm_num), disk_write_ok _ (by omega) (by simp only; rw [hnb6, hnb5]; omega),
      bind_ok_eq, if_pos (Or.inl (by norm_num))]
    have e : (0 : Int) + 4096 * ((5 : Nat) : Int) + 4096 * ((1024 : Nat) : Int)
        = (5 + 1024) * 4096 := by norm_num
    rw [e]
    simp only [show (8 * slot + 1 = 8 * slot + 7) = False from by simp, if_false]
  refine ⟨_, hfirst_goal, ?_, rfl⟩
  simp only [inode_of, htgt, hslot, Block.inode, if_true, set_word]
  rw [hsz5]
  decide

/-- Witness of `fs_write_capacity_boundary`: inode 1 of a fresh 1200-block volume. -/
theorem fs_write_capacity_boundary_witness :
    ∃ s', fs_write 1 pattern41 ((5 + 1024) * 4096 + 1) 0 (vol_created 1200)
        = .ok ((5 + 1024) * 4096, s')
      ∧ (inode_of s' 1).size = (5 + 1024) * 4096
      ∧ s'.stdout = (vol_created 1200).stdout :=
  have h : (vol_created 1200).mount_flag ≠ 0
      ∧ (0 : Int) ≤ 1 ∧ 1 < (super_of (vol_created 1200)).ninodes
      ∧ Int.tdiv 1 INODES_PER_BLOCK + 1 < (vol_created 1200).disk.nblocks
      ∧ (inode_of (vol_created 1200) 1).isvalid ≠ 0
      ∧ (inode_of (vol_created 1200) 1).size = 0
      ∧ 5 + 1024 ≤ (super_of (vol_created 1200)).nblocks
          - (super_of (vol_created 1200)).ninodeblocks - 1
      ∧ 4096 * ((super_of (vol_created 1200)).nblocks
          - (super_of (vol_created 1200)).ninodeblocks - 1) < 2147483648
      ∧ 0 ≤ (inode_of (vol_created 1200) 1).direct 0
          + (super_of (vol_created 1200)).ninodeblocks + 1
      ∧ (inode_of (vol_created 1200) 1).direct 0
          + (super_of (vol_created 1200)).ninodeblocks + 1 + (5 + 1024)
          < (vol_created 1200).disk.nblocks
      ∧ (vol_created 1200).disk.nblocks < 2147483648 := by decide!
  fs_write_capacity_boundary (vol_created 1200) 1 pattern41 h.1 h.2.1 h.2.2.1 h.2.2.2.1
    h.2.2.2.2.1 h.2.2.2.2.2.1 h.2.2.2.2.2.2.1 h.2.2.2.2.2.2.2.1 h.2.2.2.2.2.2.2.2.1
    h.2.2.2.2.2.2.2.2.2.1 h.2.2.2.2.2.2.2.2.2.2

/-- Claim C5, evaluated where the code departs from it: on a fresh 1200-block volume
(121 inode blocks, a data region of 1078 blocks, more than the 1030 blocks that
`(5+1024)*4096` bytes and their indirect block take), `fs_create` over stack content
whose pointer words hold 100000 returns inode 1, valid and of size 0, with
`direct[0] = 100000`, since `fs_create` sets no pointer.  `fs_write` of
`(5+1024)*4096 + 1` bytes at offset 0 to this empty inode takes
`direct[0] + ninodeblocks + 1 = 100122` for its first block and stops at the
`disk_read` of that block, which is not on the device: it does not return
`(5+1024)*4096`. -/
theorem capacity_write_stops_on_uninitialised_pointer :
    (super_of (fresh 1200)).nblocks = 1200
      ∧ (super_of (fresh 1200)).ninodeblocks = 121
      ∧ retval (fs_create far_inode (fresh 1200)) = some 1
      ∧ (after (fresh 1200) (fs_create far_inode (fresh 1200))).mount_flag = 1
      ∧ (inode_of (after (fresh 1200) (fs_create far_inode (fresh 1200))) 1).isvalid = 1
      ∧ (inode_of (after (fresh 1200) (fs_create far_inode (fresh 1200))) 1).size = 0
      ∧ (inode_of (after (fresh 1200) (fs_create far_inode (fresh 1200))) 1).direct 0 = 100000
      ∧ retval (fs_write 1 pattern41 ((5 + 1024) * 4096 + 1) 0
          (after (fresh 1200) (fs_create far_inode (fresh 1200)))) = none
      ∧ fault (fs_write 1 pattern41 ((5 + 1024) * 4096 + 1) 0
          (after (fresh 1200) (fs_create far_inode (fresh 1200)))) = some (Fault.disk 100122) := by
  decide!

/-- Claim C6, evaluated where the code departs from it: inode 1 holds 10 bytes in
physical block 2 (`direct[0] = 2`); `fs_write(1, data, 1, 0)`, a one-byte write inside
logical block 0 and inside the file size, returns 1 and leaves `direct[0] = 4`: the
pointer moved by `ninodeblocks + 1`, and the stored size grew to 11. -/
theorem overwrite_moves_direct_pointer :
    (inode_of (vol_written 9 10) 1).size = 10
      ∧ (inode_of (vol_written 9 10) 1).direct 0 = 2
      ∧ retval (fs_write 1 pattern41 1 0 (vol_written 9 10)) = some 1
      ∧ (inode_of (after (vol_written 9 10) (fs_write 1 pattern41 1 0 (vol_written 9 10))) 1).direct 0
          = 4
      ∧ (inode_of (after (vol_written 9 10) (fs_write 1 pattern41 1 0 (vol_written 9 10))) 1).size
          = 11 := by
  decide!

/-- Claim C7: on a mounted volume, for a valid inode in `[0, ninodes)` of stored size S,
`fs_write` with `offset > S` returns 0 and leaves the device, the free map and the
mounted flag unchanged, printing the gap-write message; with `offset <= S` every result
of `fs_write` has printed nothing or only the device-capacity message, so the write is
not rejected by this check. -/
theorem fs_write_sparse (s : State) (inumber : Int) (data : Int → Int) (length offset : Int)
    (hm : s.mount_flag ≠ 0) (hdev : 0 < s.disk.nblocks)
    (hlo : 0 ≤ inumber) (hhi : inumber < (super_of s).ninodes)
    (htarget : Int.tdiv inumber INODES_PER_BLOCK + 1 < s.disk.nblocks)
    (hvalid : (inode_of s inumber).isvalid ≠ 0) :
    (offset > (inode_of s inumber).size →
      ∃ s', fs_write inumber data length offset s = .ok (0, s')
        ∧ s'.disk = s.disk ∧ s'.free_map = s.free_map ∧ s'.mount_flag = s.mount_flag
        ∧ s'.stdout = s.stdout ++ ["attemp to write sparse file"])
    ∧ (offset ≤ (inode_of s inumber).size →
      ∀ r s', fs_write inumber data length offset s = .ok (r, s') →
        s'.stdout = s.stdout ∨ s'.stdout = s.stdout ++ ["disk small\n"]) := by
  have h0 : disk_read s.disk 0 = .ok (s.disk.blocks 0) := disk_read_ok (le_refl _) hdev
  have h1 := disk_read_ok (d := s.disk) (tdiv_128_nonneg hlo) htarget
  simp only [super_of, inode_of] at *
  constructor
  · intro hoff
    refine ⟨s.printf "attemp to write sparse file", ?_, rfl, rfl, rfl, rfl⟩
    unfold fs_write
    simp [hm, h0, h1, bind_ok_eq, hlo, hhi.le, hvalid, hoff, not_lt.mpr hhi.le]
  · intro hoff r s' h
    unfold fs_write at h
    rw [if_neg hm, h0, bind_ok_eq, if_neg (by omega), h1, bind_ok_eq, if_neg hvalid,
      if_neg (by omega)] at h
    split at h
    · right; rw [write_body_stdout h]; rfl
    · left; exact write_body_stdout h

/-- Witness of `fs_write_sparse`: inode 1 (size 0) of a fresh 9-block volume, written at
offset 1 and at offset 0. -/
theorem fs_write_sparse_witness :
    (∃ s', fs_write 1 pattern41 1 1 (vol_created 9) = .ok (0, s')
        ∧ s'.disk = (vol_created 9).disk ∧ s'.free_map = (vol_created 9).free_map
        ∧ s'.mount_flag = (vol_created 9).mount_flag
        ∧ s'.stdout = (vol_created 9).stdout ++ ["attemp to write sparse file"])
      ∧ (∀ r s', fs_write 1 pattern41 1 0 (vol_created 9) = .ok (r, s') →
        s'.stdout = (vol_created 9).stdout
          ∨ s'.stdout = (vol_created 9).stdout ++ ["disk small\n"]) :=
  have h : (vol_created 9).mount_flag ≠ 0 ∧ 0 < (vol_created 9).disk.nblocks
      ∧ (0 : Int) ≤ 1 ∧ 1 < (super_of (vol_created 9)).ninodes
      ∧ Int.tdiv 1 INODES_PER_BLOCK + 1 < (vol_created 9).disk.nblocks
      ∧ (inode_of (vol_created 9) 1).isvalid ≠ 0
      ∧ 1 > (inode_of (vol_created 9) 1).size
      ∧ 0 ≤ (inode_of (vol_created 9) 1).size := by decide!
  ⟨(fs_write_sparse (vol_created 9) 1 pattern41 1 1 h.1 h.2.1 h.2.2.1 h.2.2.2.1 h.2.2.2.2.1
      h.2.2.2.2.2.1).1 h.2.2.2.2.2.2.1,
    (fs_write_sparse (vol_created 9) 1 pattern41 1 0 h.1 h.2.1 h.2.2.1 h.2.2.2.1 h.2.2.2.2.1
      h.2.2.2.2.2.1).2 h.2.2.2.2.2.2.2⟩

/-- Claim C8, evaluated where the code departs from it: on a freshly formatted and
mounted volume slot 0 of inode block 1 is invalid, yet `fs_create` returns 1, and slot 0
is still invalid afterwards: the scan starts at slot 1.  The pointer words of the new
inode are whatever the stack held (here 100), not cleared. -/
theorem fs_create_skips_slot_zero :
    (inode_of (fresh 8) 0).isvalid = 0
      ∧ retval (fs_create zero_inode (fresh 8)) = some 1
      ∧ (inode_of (vol_created 8) 0).isvalid = 0
      ∧ (inode_of (vol_created 8) 1).isvalid = 1
      ∧ (inode_of (after (fresh 8) (fs_create junk_inode (fresh 8))) 1).direct 0 = 100
      ∧ (inode_of (after (fresh 8) (fs_create junk_inode (fresh 8))) 1).indirect = 100 := by
  decide!

/-- Claim C9, evaluated where the code departs from it: on a fresh 9-block volume
(`ninodes = 128`) 127 calls of `fs_create`, the last of which returns 127, make the
slots 1..127 of block 1 valid, slot 0 staying invalid.  The next call finds no invalid
slot among 1..127, tests `block.inode[128].isvalid`, the word after the block, finds 0
there and returns 128.  That number is not below `ninodes`; the call made no slot valid (the
validity word of every slot of block 1 is as before); slot `128 mod 128 = 0` of block
`1 + 128 / 128 = 2` does not hold a valid inode; and `fs_getsize(128)` called next
returns -1 instead of 0. -/
theorem fs_create_returns_number_past_block :
    (super_of (created 127 (fresh 9))).ninodes = 128
      ∧ retval (fs_create zero_inode (created 126 (fresh 9))) = some 127
      ∧ (List.range 128).all (fun j =>
          decide ((inode_of (created 127 (fresh 9)) (j : Int)).isvalid
            = if j = 0 then 0 else 1)) = true
      ∧ (created 127 (fresh 9)).mount_flag = 1
      ∧ retval (fs_create zero_inode (created 127 (fresh 9))) = some 128
      ∧ (List.range 128).all (fun j =>
          decide ((inode_of (created 128 (fresh 9)) (j : Int)).isvalid
            = (inode_of (created 127 (fresh 9)) (j : Int)).isvalid)) = true
      ∧ (inode_of (created 128 (fresh 9)) 128).isvalid = 0
      ∧ retval (fs_getsize 128 (created 128 (fresh 9))) = some (-1) := by
  decide!

/-- Claim C10, evaluated where the code departs from it: on a fresh 9-block volume the
superblock inode count is 128, and for `inumber = 128`, outside `[0, ninodes)`,
`fs_delete` returns 1 instead of 0; once block 2 holds file data, `fs_getsize(128)` reads
that data block as an inode block and returns `0x41414141` instead of -1. -/
theorem inumber_equal_to_ninodes_is_accepted :
    (super_of (fresh 9)).ninodes = 128
      ∧ retval (fs_delete zero_inode 128 (fresh 9)) = some 1
      ∧ (inode_of (vol_written 9 8) 1).direct 0 = 2
      ∧ retval (fs_getsize 128 (vol_written 9 8)) = some 1094795585 := by
  decide!

/-! ## Facts on `fs_format` and `fs_mount` -/

/-- The loop of `fs_format` that fills a block with cleared inode records zeroes the
words of the slots it passes and leaves the other words. -/
theorem format_fill_zero :
    ∀ (n : Nat) (i : Int) (b : Block) (w : Int),
      format_fill zero_inode n i b w
        = if 8 * i ≤ w ∧ w < 8 * (i + n) then 0 else b w := by
  intro n
  induction n with
  | zero =>
    intro i b w
    rw [format_fill, if_neg]
    push_cast; omega
  | succ n ih =>
    intro i b w
    rw [format_fill, ih]
    by_cases h1 : 8 * (i + 1) ≤ w ∧ w < 8 * (i + 1 + n)
    · have hc : 8 * i ≤ w ∧ w < 8 * (i + ((n + 1 : Nat) : Int)) := by push_cast; omega
      rw [if_pos h1, if_pos hc]
    · rw [if_neg h1]
      by_cases h2 : 8 * i ≤ w ∧ w < 8 * i + 8
      · have hc : 8 * i ≤ w ∧ w < 8 * (i + ((n + 1 : Nat) : Int)) := by push_cast; omega
        rw [if_pos hc]
        simp only [set_inode, zero_inode, if_pos h2]
        split
        · rfl
        · split
          · rfl
          · split <;> rfl
      · have hc : ¬ (8 * i ≤ w ∧ w < 8 * (i + ((n + 1 : Nat) : Int))) := by push_cast; omega
        rw [if_neg hc]
        simp only [set_inode, if_neg h2]

/-- The loop of `fs_format` that writes the inode blocks, when they exist on the
device. -/
theorem format_blocks_ok (block : Block) :
    ∀ (n : Nat) (i : Int) (d : Disk), 0 ≤ i → i + n ≤ d.nblocks →
      ∃ d', format_blocks block n i d = .ok d' ∧ d'.nblocks = d.nblocks
        ∧ ∀ k, d'.blocks k = if i ≤ k ∧ k < i + n then block else d.blocks k := by
  intro n
  induction n with
  | zero =>
    intro i d _ _
    refine ⟨d, rfl, rfl, ?_⟩
    intro k
    rw [if_neg]
    push_cast; omega
  | succ n ih =>
    intro i d h1 h2
    push_cast at h2
    obtain ⟨d', hrun, hnb, hblk⟩ := ih (i + 1)
      { d with blocks := fun k => if k = i then block else d.blocks k }
      (by omega) (by simp only; omega)
    refine ⟨d', ?_, hnb, ?_⟩
    · rw [format_blocks, disk_write_ok _ h1 (by omega), bind_ok_eq]
      exact hrun
    · intro k
      rw [hblk k]
      by_cases h3 : i + 1 ≤ k ∧ k < i + 1 + n
      · rw [if_pos h3, if_pos (by push_cast; omega)]
      · rw [if_neg h3]
        by_cases h4 : k = i
        · rw [if_pos (by push_cast; omega)]; simp [h4]
        · rw [if_neg (by push_cast; omega)]; simp [h4]

/-- The function `fs_format` on an unmounted volume, with the superblock named. -/
theorem fs_format_unmounted (stack : Block) (s : State) (h0 : s.mount_flag = 0) :
    fs_format stack s
      = (disk_write s.disk 0 (format_super stack s.disk.nblocks) >>= fun d =>
          format_blocks (format_fill zero_inode 128 0 (format_super stack s.disk.nblocks))
            (NUM_INODE_BLOCKS s.disk.nblocks + 1 - 1).toNat 1 d >>= fun d =>
          .ok (1, { s with disk := d })) := by
  unfold fs_format
  rw [if_neg (by rw [h0]; simp)]
  rfl

/-- What `fs_format` leaves on an unmounted device of at least two blocks. -/
theorem fs_format_result (stack : Block) (s : State)
    (h0 : s.mount_flag = 0) (h2 : 2 ≤ s.disk.nblocks) :
    ∃ s', fs_format stack s = .ok (1, s')
      ∧ s'.mount_flag = 0 ∧ s'.free_map = s.free_map ∧ s'.stdout = s.stdout
      ∧ s'.disk.nblocks = s.disk.nblocks
      ∧ s'.disk.blocks 0 0 = wrap32 FS_MAGIC
      ∧ s'.disk.blocks 0 1 = s.disk.nblocks
      ∧ s'.disk.blocks 0 2 = 1 + s.disk.nblocks / 10
      ∧ s'.disk.blocks 0 3 = wrap32 ((1 + s.disk.nblocks / 10) * 128)
      ∧ (∀ b, 1 ≤ b → b ≤ 1 + s.disk.nblocks / 10 →
          ∀ w, 0 ≤ w → w < 1024 → s'.disk.blocks b w = 0)
      ∧ (∀ b, 1 + s.disk.nblocks / 10 < b → s'.disk.blocks b = s.disk.blocks b) := by
  have hnib : NUM_INODE_BLOCKS s.disk.nblocks = 1 + s.disk.nblocks / 10 := by
    rw [NUM_INODE_BLOCKS, Int.tdiv_eq_ediv (by omega) (by norm_num)]
  rw [fs_format_unmounted stack s h0]
  generalize hd : s.disk = d0 at h2 hnib ⊢
  rw [disk_write_ok _ (le_refl _) (by omega), bind_ok_eq]
  obtain ⟨d', hrun, hnb, hblk⟩ := format_blocks_ok
    (format_fill zero_inode 128 0 (format_super stack d0.nblocks))
    (NUM_INODE_BLOCKS d0.nblocks + 1 - 1).toNat 1
    { d0 with blocks := fun k => if k = 0 then format_super stack d0.nblocks else d0.blocks k }
    (by norm_num) (by simp only; rw [hnib]; omega)
  rw [hrun, bind_ok_eq]
  have hto : ((NUM_INODE_BLOCKS d0.nblocks + 1 - 1).toNat : Int) = 1 + d0.nblocks / 10 := by
    rw [hnib]; omega
  refine ⟨_, rfl, h0, rfl, rfl, hnb, ?_, ?_, ?_, ?_, ?_, ?_⟩
  · simp only; rw [hblk 0, if_neg (by omega)]; simp [format_super, set_word]
  · simp only; rw [hblk 0, if_neg (by omega)]; simp [format_super, set_word]
  · simp only; rw [hblk 0, if_neg (by omega)]; simp [format_super, set_word, hnib]
  · simp only; rw [hblk 0, if_neg (by omega)]; simp [format_super, set_word, hnib]
  · intro b hb1 hb2 w hw0 hw1
    simp only
    rw [hblk b, if_pos (by rw [hto]; omega), format_fill_zero, if_pos (by push_cast; omega)]
  · intro b hb
    simp only
    rw [hblk b, if_neg (by rw [hto]; omega)]
    simp [show b ≠ 0 by omega]

/-- The slot loop of `fs_mount` over slots that are all invalid leaves the free map. -/
theorem mount_slots_all_invalid (d : Disk) (block : Block) :
    ∀ (n : Nat) (j : Int) (m : FreeMap),
      (∀ j', j ≤ j' → j' < j + n → block (8 * j') = 0) →
      mount_slots d block n j m = .ok m := by
  intro n
  induction n with
  | zero => intro j m _; rfl
  | succ n ih =>
    intro j m h
    rw [mount_slots, if_neg]
    · exact ih (j + 1) m (fun j' h1 h2 => h j' (by omega) (by push_cast; omega))
    · simp only [Block.inode, ne_eq, not_not]
      exact h j (le_refl _) (by push_cast; omega)

/-- The function `fs_mount` on a state that is not mounted, whose block 0 exists and
holds the magic number, when the rebuild of the free map returns `m`. -/
theorem fs_mount_rebuilt (s : State) (m : FreeMap)
    (hflag : s.mount_flag ≠ 1) (hdev : 0 < s.disk.nblocks)
    (hmagic : (super_of s).magic % 4294967296 = FS_MAGIC)
    (hm : mount_blocks s.disk (2147483648 : Nat) 1 (wrap32 ((super_of s).ninodeblocks + 1))
      { len := wrap32 ((super_of s).nblocks - (super_of s).ninodeblocks), cells := fun _ => 0 }
        = .ok m) :
    fs_mount s = .ok (1, { s with free_map := m, mount_flag := 1 }) := by
  simp only [super_of] at hmagic hm
  unfold fs_mount
  rw [if_neg hflag, disk_read_ok (le_refl _) hdev, bind_ok_eq, if_neg (by rw [hmagic]; simp)]
  simp only []
  rw [hm, bind_ok_eq]

/-- The rebuild of the free map on a freshly formatted volume finds no valid inode. -/
theorem mount_blocks_formatted (d : Disk) (len : Int)
    (h1 : 1 < d.nblocks) (hnib : 1 ≤ d.blocks 0 2) (hnib32 : d.blocks 0 2 < 2147483647)
    (hzero : ∀ w, 0 ≤ w → w < 1024 → d.blocks 1 w = 0) :
    mount_blocks d (2147483648 : Nat) 1 (wrap32 ((d.blocks 0).super.ninodeblocks + 1))
      { len := len, cells := fun _ => 0 } = .ok { len := len, cells := fun _ => 0 } := by
  have hb : wrap32 ((d.blocks 0).super.ninodeblocks + 1) = d.blocks 0 2 + 1 := by
    simp only [Block.super]; exact wrap32_of_range (by omega) (by omega)
  rw [hb, show (2147483648 : Nat) = 2147483647 + 1 from rfl, mount_blocks, if_pos (by omega),
    disk_read_ok (by norm_num) h1, bind_ok_eq,
    mount_slots_all_invalid d (d.blocks 1) 128 0 _
      (fun j' h1 h2 => hzero _ (by omega) (by push_cast at h2; omega)),
    bind_ok_eq]
  have hb2 : wrap32 ((d.blocks 1).super.ninodeblocks + 1) = 1 := by
    simp only [Block.super]; rw [hzero 2 (by norm_num) (by norm_num)]; decide
  rw [hb2, show (2147483647 : Nat) = 2147483646 + 1 from rfl, mount_blocks, if_neg (by norm_num)]

/-! ## The claims, continued -/

/-- Claim C11, evaluated where the code departs from it: deleting the valid one-byte
file of a 9-block volume returns 1 and makes the inode invalid, but its `direct[0]` and
`indirect` then hold what the stack held (100), not 0; and on a 3-block volume, whose
one-byte file holds block 2, `fs_delete` stores to `free_map[2]` in a map of 2 cells
instead of returning 1. -/
theorem delete_leaves_pointers_and_overruns_free_map :
    (inode_of (vol_written 9 1) 1).isvalid = 1
      ∧ retval (fs_delete junk_inode 1 (vol_written 9 1)) = some 1
      ∧ (inode_of (after (vol_written 9 1) (fs_delete junk_inode 1 (vol_written 9 1))) 1).isvalid
          = 0
      ∧ (inode_of (after (vol_written 9 1) (fs_delete junk_inode 1 (vol_written 9 1))) 1).direct 0
          = 100
      ∧ (inode_of (after (vol_written 9 1) (fs_delete junk_inode 1 (vol_written 9 1))) 1).indirect
          = 100
      ∧ (inode_of (vol_written 3 1) 1).isvalid = 1
      ∧ referenced (vol_written 3 1) 1 = [2]
      ∧ (vol_written 3 1).free_map.len = 2
      ∧ fault (fs_delete zero_inode 1 (vol_written 3 1)) = some (Fault.free_map 2) := by
  decide!

/-- Claim C12: on a mounted volume, for every `inumber` in `[0, ninodes)` whose inode
block is on the device and whose slot is invalid, `fs_delete` returns 1 and the state
after it is the state before it: no device block and no free-map cell changes. -/
theorem fs_delete_invalid_inode (stack : fs_inode) (s : State) (inumber : Int)
    (hm : s.mount_flag ≠ 0)
    (hlo : 0 ≤ inumber) (hhi : inumber < (super_of s).ninodes)
    (htarget : Int.tdiv inumber INODES_PER_BLOCK + 1 < s.disk.nblocks)
    (hinvalid : (inode_of s inumber).isvalid = 0) :
    fs_delete stack inumber s = .ok (1, s) := by
  have h0 : disk_read s.disk 0 = .ok (s.disk.blocks 0) :=
    disk_read_ok (le_refl _) (by have := tdiv_128_nonneg hlo; omega)
  have h1 := disk_read_ok (d := s.disk) (tdiv_128_nonneg hlo) htarget
  simp only [super_of, inode_of] at hhi hinvalid
  unfold fs_delete
  rw [if_neg hm, h0, bind_ok_eq, if_neg (by omega), h1, bind_ok_eq,
    if_neg (by rw [hinvalid]; simp)]

/-- Witness of `fs_delete_invalid_inode`: slot 5 of a fresh 9-block volume. -/
theorem fs_delete_invalid_inode_witness :
    fs_delete junk_inode 5 (fresh 9) = .ok (1, fresh 9) := by
  have h : (fresh 9).mount_flag ≠ 0 ∧ (0 : Int) ≤ 5 ∧ 5 < (super_of (fresh 9)).ninodes
      ∧ Int.tdiv 5 INODES_PER_BLOCK + 1 < (fresh 9).disk.nblocks
      ∧ (inode_of (fresh 9) 5).isvalid = 0 := by decide!
  exact fs_delete_invalid_inode junk_inode (fresh 9) 5 h.1 h.2.1 h.2.2.1 h.2.2.2.1 h.2.2.2.2

/-- Claim C13: whenever the volume is not mounted (`mount_flag` is 0), for all arguments
`fs_create` and `fs_getsize` return -1 and `fs_delete`, `fs_read` and `fs_write` return
0; each only prints "disk not mount", so the device, the mounted flag and the free map
are those of before, and `fs_read` hands the caller's buffer back untouched. -/
theorem unmounted_calls_are_rejected (s : State) (stack : fs_inode) (inumber length offset : Int)
    (buf data : Int → Int) (h : s.mount_flag = 0) :
    fs_create stack s = .ok (-1, s.printf "disk not mount\n")
      ∧ fs_getsize inumber s = .ok (-1, s.printf "disk not mount\n")
      ∧ fs_delete stack inumber s = .ok (0, s.printf "disk not mount\n")
      ∧ fs_read inumber buf length offset s = .ok (0, buf, s.printf "disk not mount\n")
      ∧ fs_write inumber data length offset s = .ok (0, s.printf "disk not mount\n")
      ∧ (s.printf "disk not mount\n").disk = s.disk
      ∧ (s.printf "disk not mount\n").mount_flag = s.mount_flag
      ∧ (s.printf "disk not mount\n").free_map = s.free_map := by
  refine ⟨?_, ?_, ?_, ?_, ?_, rfl, rfl, rfl⟩
  · unfold fs_create; rw [if_pos h]
  · unfold fs_getsize; rw [if_pos h]
  · unfold fs_delete; rw [if_pos h]
  · unfold fs_read; rw [if_pos h]
  · unfold fs_write; rw [if_pos h]

/-- Witness of `unmounted_calls_are_rejected`: the unmounted 9-block device. -/
theorem unmounted_calls_are_rejected_witness :
    fs_create zero_inode (blank 9) = .ok (-1, (blank 9).printf "disk not mount\n")
      ∧ fs_getsize 1 (blank 9) = .ok (-1, (blank 9).printf "disk not mount\n")
      ∧ fs_delete zero_inode 1 (blank 9) = .ok (0, (blank 9).printf "disk not mount\n")
      ∧ fs_read 1 zero_buffer 10 0 (blank 9)
          = .ok (0, zero_buffer, (blank 9).printf "disk not mount\n")
      ∧ fs_write 1 pattern41 10 0 (blank 9) = .ok (0, (blank 9).printf "disk not mount\n")
      ∧ ((blank 9).printf "disk not mount\n").disk = (blank 9).disk
      ∧ ((blank 9).printf "disk not mount\n").mount_flag = (blank 9).mount_flag
      ∧ ((blank 9).printf "disk not mount\n").free_map = (blank 9).free_map :=
  unmounted_calls_are_rejected (blank 9) zero_inode 1 10 0 zero_buffer pattern41 (by decide)

/-- The lifecycle calls where the rebuild of the free map completes: for a state whose
mounted flag is 0 or 1 on a device of at least two blocks, `fs_format` returns 1 exactly
when the volume is unmounted, and returns 0 with flag and device unchanged when mounted;
every call of `fs_mount` that returns, returns 1 exactly when the volume is unmounted
and block 0 holds the magic number, then with the flag set to 1 and the device
unchanged, and otherwise 0 with flag and device unchanged; `fs_mount` does return 0
when mounted or when the magic number is wrong, returns 1 when the rebuild of the free
map completes, and returns 1 right after a successful `fs_format`; `fs_unmount` returns
1 exactly when mounted, then with the flag cleared and the device unchanged, and returns
0 with flag and device unchanged when unmounted.  The rebuild does not complete on every
image that holds the magic number. -/
theorem lifecycle_state_machine (stack : Block) (s : State)
    (hflag : s.mount_flag = 0 ∨ s.mount_flag = 1)
    (hdev : 2 ≤ s.disk.nblocks) (hint : s.disk.nblocks < 2147483648) :
    (retval (fs_format stack s) = some 1 ↔ s.mount_flag = 0)
      ∧ (s.mount_flag = 1 →
          fs_format stack s = .ok (0, s.printf "Cannot format while mounted \n"))
      ∧ (∀ r s', fs_mount s = .ok (r, s') →
          (r = 1 ↔ s.mount_flag = 0 ∧ (super_of s).magic % 4294967296 = FS_MAGIC)
            ∧ (r = 1 → s'.mount_flag = 1 ∧ s'.disk = s.disk)
            ∧ (r ≠ 1 → r = 0 ∧ s'.disk = s.disk ∧ s'.mount_flag = s.mount_flag))
      ∧ (s.mount_flag = 1 → fs_mount s = .ok (0, s.printf "already mounted\n"))
      ∧ (s.mount_flag = 0 → (super_of s).magic % 4294967296 ≠ FS_MAGIC →
          fs_mount s = .ok (0, s.printf "invalid magic number\n"))
      ∧ (s.mount_flag = 0 → (super_of s).magic % 4294967296 = FS_MAGIC →
          ∀ m, mount_blocks s.disk (2147483648 : Nat) 1
              (wrap32 ((super_of s).ninodeblocks + 1))
              { len := wrap32 ((super_of s).nblocks - (super_of s).ninodeblocks),
                cells := fun _ => 0 } = .ok m →
            fs_mount s = .ok (1, { s with free_map := m, mount_flag := 1 }))
      ∧ (∀ s1, fs_format stack s = .ok (1, s1) →
          ∃ s2, fs_mount s1 = .ok (1, s2) ∧ s2.mount_flag = 1 ∧ s2.disk = s1.disk)
      ∧ (retval (fs_unmount s) = some 1 ↔ s.mount_flag = 1)
      ∧ (s.mount_flag = 1 →
          ∃ s', fs_unmount s = .ok (1, s') ∧ s'.mount_flag = 0 ∧ s'.disk = s.disk)
      ∧ (s.mount_flag = 0 → fs_unmount s = .ok (0, s.printf "already unmounted\n")) := by
  have hfmt1 : s.mount_flag = 1 →
      fs_format stack s = .ok (0, s.printf "Cannot format while mounted \n") := by
    intro h
    unfold fs_format
    rw [if_pos (by rw [h]; norm_num)]
  have hmnt1 : s.mount_flag = 1 → fs_mount s = .ok (0, s.printf "already mounted\n") := by
    intro h
    unfold fs_mount
    rw [if_pos h]
  have hmnt0 : s.mount_flag = 0 → (super_of s).magic % 4294967296 ≠ FS_MAGIC →
      fs_mount s = .ok (0, s.printf "invalid magic number\n") := by
    intro h hmag
    simp only [super_of] at hmag
    unfold fs_mount
    rw [if_neg (by rw [h]; norm_num), disk_read_ok (le_refl _) (by omega), bind_ok_eq,
      if_pos hmag]
  have hunm1 : s.mount_flag = 1 → fs_unmount s
      = .ok (1, { s with mount_flag := 0, free_map := { len := 0, cells := fun _ => 0 } }) := by
    intro h
    unfold fs_unmount
    rw [if_pos (by rw [h]; norm_num)]
  have hunm0 : s.mount_flag = 0 → fs_unmount s = .ok (0, s.printf "already unmounted\n") := by
    intro h
    unfold fs_unmount
    rw [if_neg (by rw [h]; norm_num)]
  refine ⟨?_, hfmt1, ?_, hmnt1, hmnt0, ?_, ?_, ?_, ?_, hunm0⟩
  · constructor
    · intro h
      rcases hflag with h0 | h1
      · exact h0
      · rw [hfmt1 h1] at h; simp [retval] at h
    · intro h0
      obtain ⟨s', hrun, -⟩ := fs_format_result stack s h0 hdev
      rw [hrun]; rfl
  · intro r s' h
    rcases hflag with h0 | h1
    · by_cases hmag : (super_of s).magic % 4294967296 = FS_MAGIC
      · unfold fs_mount at h
        simp only [super_of] at hmag
        rw [if_neg (by rw [h0]; norm_num), disk_read_ok (le_refl _) (by omega), bind_ok_eq,
          if_neg (by rw [hmag]; simp)] at h
        simp only [] at h
        rw [bind_eq_ok] at h
        obtain ⟨m, -, h⟩ := h
        simp only [Except.ok.injEq, Prod.mk.injEq] at h
        obtain ⟨hr, hs⟩ := h
        subst hr hs
        refine ⟨⟨fun _ => ⟨h0, ?_⟩, fun _ => rfl⟩, fun _ => ⟨rfl, rfl⟩, fun hne => absurd rfl hne⟩
        simp only [super_of]; exact hmag
      · rw [hmnt0 h0 hmag] at h
        simp only [Except.ok.injEq, Prod.mk.injEq] at h
        obtain ⟨hr, hs⟩ := h
        subst hr hs
        refine ⟨⟨fun h => absurd h (by norm_num), fun h => absurd h.2 hmag⟩,
          fun h => absurd h (by norm_num), fun _ => ⟨rfl, rfl, rfl⟩⟩
    · rw [hmnt1 h1] at h
      simp only [Except.ok.injEq, Prod.mk.injEq] at h
      obtain ⟨hr, hs⟩ := h
      subst hr hs
      refine ⟨⟨fun h => absurd h (by norm_num), fun h => ?_⟩,
        fun h => absurd h (by norm_num), fun _ => ⟨rfl, rfl, rfl⟩⟩
      rw [h1] at h; exact absurd h.1 (by norm_num)
  · intro h0 hmag m hm
    exact fs_mount_rebuilt s m (by rw [h0]; norm_num) (by omega) hmag hm
  · intro s1 h
    rcases hflag with h0 | h1
    · obtain ⟨s', hrun, hf, -, -, hnb, hw0, -, hw2, -, hin, -⟩ :=
        fs_format_result stack s h0 hdev
      rw [hrun] at h
      simp only [Except.ok.injEq, Prod.mk.injEq, true_and] at h
      subst h
      have hm := mount_blocks_formatted s'.disk
        (wrap32 ((super_of s').nblocks - (super_of s').ninodeblocks))
        (by rw [hnb]; omega) (by rw [hw2]; omega) (by rw [hw2]; omega)
        (fun w h0 h1 => hin 1 (le_refl _) (by omega) w h0 h1)
      refine ⟨_, fs_mount_rebuilt s' _ (by rw [hf]; norm_num) (by rw [hnb]; omega) ?_ hm,
        rfl, rfl⟩
      simp only [super_of, Block.super]; rw [hw0]; decide
    · rw [hfmt1 h1] at h
      simp at h
  · constructor
    · intro h
      rcases hflag with h0 | h1
      · rw [hunm0 h0] at h; simp [retval] at h
      · exact h1
    · intro h1
      rw [hunm1 h1]; rfl
  · intro h1
    exact ⟨_, hunm1 h1, rfl, rfl⟩

/-- Witness of `lifecycle_state_machine`: the unmounted 9-block device. -/
theorem lifecycle_state_machine_witness :
    (retval (fs_format zero_block (blank 9)) = some 1 ↔ (blank 9).mount_flag = 0)
      ∧ ((blank 9).mount_flag = 1 →
          fs_format zero_block (blank 9)
            = .ok (0, (blank 9).printf "Cannot format while mounted \n"))
      ∧ (∀ r s', fs_mount (blank 9) = .ok (r, s') →
          (r = 1 ↔ (blank 9).mount_flag = 0
              ∧ (super_of (blank 9)).magic % 4294967296 = FS_MAGIC)
            ∧ (r = 1 → s'.mount_flag = 1 ∧ s'.disk = (blank 9).disk)
            ∧ (r ≠ 1 → r = 0 ∧ s'.disk = (blank 9).disk
                ∧ s'.mount_flag = (blank 9).mount_flag))
      ∧ ((blank 9).mount_flag = 1 →
          fs_mount (blank 9) = .ok (0, (blank 9).printf "already mounted\n"))
      ∧ ((blank 9).mount_flag = 0 → (super_of (blank 9)).magic % 4294967296 ≠ FS_MAGIC →
          fs_mount (blank 9) = .ok (0, (blank 9).printf "invalid magic number\n"))
      ∧ ((blank 9).mount_flag = 0 → (super_of (blank 9)).magic % 4294967296 = FS_MAGIC →
          ∀ m, mount_blocks (blank 9).disk (2147483648 : Nat) 1
              (wrap32 ((super_of (blank 9)).ninodeblocks + 1))
              { len := wrap32 ((super_of (blank 9)).nblocks - (super_of (blank 9)).ninodeblocks),
                cells := fun _ => 0 } = .ok m →
            fs_mount (blank 9)
              = .ok (1, { (blank 9) with free_map := m, mount_flag := 1 }))
      ∧ (∀ s1, fs_format zero_block (blank 9) = .ok (1, s1) →
          ∃ s2, fs_mount s1 = .ok (1, s2) ∧ s2.mount_flag = 1 ∧ s2.disk = s1.disk)
      ∧ (retval (fs_unmount (blank 9)) = some 1 ↔ (blank 9).mount_flag = 1)
      ∧ ((blank 9).mount_flag = 1 →
          ∃ s', fs_unmount (blank 9) = .ok (1, s') ∧ s'.mount_flag = 0
            ∧ s'.disk = (blank 9).disk)
      ∧ ((blank 9).mount_flag = 0 →
          fs_unmount (blank 9) = .ok (0, (blank 9).printf "already unmounted\n")) :=
  lifecycle_state_machine zero_block (blank 9) (Or.inl (by decide)) (by decide) (by decide)

/-- Claim C14, evaluated where the code departs from it: on a fresh 9-block volume
`fs_create` over stack content whose indirect word holds 100 returns inode 1, and
`fs_write` of exactly five blocks (20480 bytes) to it returns 20480 and leaves
`indirect = 100`, the write having no byte for an indirect block.  `fs_unmount` returns
1: the volume is now unmounted, block 0 holds the magic number, and the free map that
`fs_mount` allocates has 8 cells.  `fs_mount` takes the inode for one with an indirect
block (`5 < 5` is false), stores at `free_map[100]` and reads block 100 of the 9-block
device: the call stops there and does not return 1, although the volume is unmounted
and block 0 holds the magic number. -/
theorem mount_stops_on_uninitialised_indirect :
    retval (fs_create stale_indirect (fresh 9)) = some 1
      ∧ retval (fs_write 1 pattern41 20480 0
          (after (fresh 9) (fs_create stale_indirect (fresh 9)))) = some 20480
      ∧ (inode_of five_blocks_stale 1).isvalid = 1
      ∧ (inode_of five_blocks_stale 1).size = 20480
      ∧ (inode_of five_blocks_stale 1).indirect = 100
      ∧ retval (fs_unmount five_blocks_stale) = some 1
      ∧ (unmounted five_blocks_stale).mount_flag = 0
      ∧ (super_of (unmounted five_blocks_stale)).magic % 4294967296 = FS_MAGIC
      ∧ (unmounted five_blocks_stale).disk.nblocks = 9
      ∧ (super_of (unmounted five_blocks_stale)).nblocks
          - (super_of (unmounted five_blocks_stale)).ninodeblocks = 8
      ∧ retval (fs_mount (unmounted five_blocks_stale)) = none
      ∧ fault (fs_mount (unmounted five_blocks_stale)) = some (Fault.free_map 100)
      ∧ fault (disk_read (unmounted five_blocks_stale).disk 100) = some (Fault.disk 100) := by
  decide!

/-- Claim C16, evaluated where the code departs from it: the valid inode 1 of the image
has size `5*4096`, references exactly the direct blocks 2..6 and has `indirect = 0`;
`fs_mount` returns 1 and marks the cells 2..6 and also cell 0, the value of the unused
indirect pointer, a block no valid inode references. -/
theorem mount_marks_indirect_of_five_block_file :
    (inode_of (unmounted (vol_written 9 (5 * 4096))) 1).isvalid = 1
      ∧ (inode_of (unmounted (vol_written 9 (5 * 4096))) 1).size = 5 * 4096
      ∧ referenced (unmounted (vol_written 9 (5 * 4096))) 1 = [2, 3, 4, 5, 6]
      ∧ (inode_of (unmounted (vol_written 9 (5 * 4096))) 1).indirect = 0
      ∧ retval (fs_mount (unmounted (vol_written 9 (5 * 4096)))) = some 1
      ∧ (after (unmounted (vol_written 9 (5 * 4096)))
          (fs_mount (unmounted (vol_written 9 (5 * 4096))))).free_map.marked
          = [0, 2, 3, 4, 5, 6] := by
  decide!

/-- Claim C17, evaluated where the code departs from it: on a file of size 10,
`fs_write(1, data, 0, 10)` returns 10 and the size becomes 20, where
`min(offset + length, ...) - offset` is 0; on a file of size `5*4096` (in a data region
of 7 blocks), `fs_write(1, data, 10, 5*4096)` returns 0 and the size stays `5*4096`,
where the claim gives 10 and `5*4096 + 10`. -/
theorem write_result_ignores_offset :
    (inode_of (vol_written 9 10) 1).size = 10
      ∧ retval (fs_write 1 pattern41 0 10 (vol_written 9 10)) = some 10
      ∧ (inode_of (after (vol_written 9 10) (fs_write 1 pattern41 0 10 (vol_written 9 10))) 1).size
          = 20
      ∧ (inode_of (vol_written 9 (5 * 4096)) 1).size = 5 * 4096
      ∧ write_capacity ((vol_written 9 (5 * 4096)).disk.blocks 0) = 7 * 4096
      ∧ retval (fs_write 1 pattern41 10 (5 * 4096) (vol_written 9 (5 * 4096))) = some 0
      ∧ (inode_of (after (vol_written 9 (5 * 4096))
          (fs_write 1 pattern41 10 (5 * 4096) (vol_written 9 (5 * 4096)))) 1).size
          = 5 * 4096 := by
  decide!

/-- Claim C18, evaluated where the code departs from it: inode 1 has size `6*4096`, its
indirect block is block 7, whose entry 0 is block 8, and byte 0 of block 8 is `0x41`;
`fs_read(1, buf, 10, 5*4096)`, whose logical block index is 5, returns 0 and leaves
`buf[0]` at 0: nothing is copied from block 8. -/
theorem read_at_block_five_copies_nothing :
    (inode_of (vol_written 9 (6 * 4096)) 1).size = 6 * 4096
      ∧ (inode_of (vol_written 9 (6 * 4096)) 1).indirect = 7
      ∧ (vol_written 9 (6 * 4096)).disk.blocks 7 0 = 8
      ∧ get_byte ((vol_written 9 (6 * 4096)).disk.blocks 8) 0 = 0x41
      ∧ retval (fs_read 1 zero_buffer 10 (5 * 4096) (vol_written 9 (6 * 4096))) = some 0
      ∧ buffer_after (fs_read 1 zero_buffer 10 (5 * 4096) (vol_written 9 (6 * 4096))) 0 = 0 := by
  decide!

/-- Claim C19, evaluated where the code departs from it: on a 9-block volume with one
inode block, when the stack left -1 in the pointer words `fs_create` does not initialise,
a one-byte `fs_write` to the new inode returns 1 and stores 1, the inode block, in
`direct[0]`; with a zero stack, four one-byte overwrites at offset 0 move `direct[0]` to
8 and the fifth calls `disk_read` on block 10 of the 9-block device; and on an 8-block
volume a write clamped to the capacity `6*4096` calls `disk_read` on block 8. -/
theorem write_leaves_data_region :
    (super_of (fresh 9)).ninodeblocks = 1
      ∧ retval (fs_create minus_one_inode (fresh 9)) = some 1
      ∧ retval (fs_write 1 pattern41 1 0 (after (fresh 9) (fs_create minus_one_inode (fresh 9))))
          = some 1
      ∧ (inode_of (overwritten (after (fresh 9) (fs_create minus_one_inode (fresh 9)))) 1).direct 0
          = 1
      ∧ (super_of (vol_created 9)).nblocks = 9
      ∧ (inode_of (overwritten (overwritten (overwritten (overwritten (vol_created 9))))) 1).direct 0
          = 8
      ∧ fault (fs_write 1 pattern41 1 0
          (overwritten (overwritten (overwritten (overwritten (vol_created 9))))))
          = some (Fault.disk 10)
      ∧ write_capacity ((vol_created 8).disk.blocks 0) = 6 * 4096
      ∧ fault (fs_write 1 pattern41 (6 * 4096 + 1) 0 (vol_created 8)) = some (Fault.disk 8) := by
  decide!

/-- Claim C20, evaluated where the code departs from it: the 3-block image has one
inode block, and its only valid inode references the data-region block 2 alone;
`fs_mount` stops at the store `free_map[2]`, in a map of `3 - 1 = 2` cells, and
`fs_delete` on the mounted volume stops at the same store. -/
theorem free_map_index_exceeds_length :
    (super_of (unmounted (vol_written 3 1))).nblocks = 3
      ∧ (super_of (unmounted (vol_written 3 1))).ninodeblocks = 1
      ∧ (inode_of (unmounted (vol_written 3 1)) 1).isvalid = 1
      ∧ referenced (unmounted (vol_written 3 1)) 1 = [2]
      ∧ fault (fs_mount (unmounted (vol_written 3 1))) = some (Fault.free_map 2)
      ∧ (vol_written 3 1).free_map.len = 2
      ∧ fault (fs_delete zero_inode 1 (vol_written 3 1)) = some (Fault.free_map 2) := by
  decide!

end SimpleFS
